import Mathlib

/-!
# SKT pseudo-join example (`main.cpp`): shallow embedding

The program is a single translation unit: `main`, `send_message`,
`receive_message` and `lora_event_handler`, operating on a handful of globals and
calling into the LoRaWAN stack, the event queue, the sensor driver and the AES
primitive.

Embedding conventions:

* the globals read or written by the handler form the record `State`;
* every call into a collaborator is logged as an `Action`, in program order
  (`printf` tracing is not logged);
* what the collaborators answer during one activation is the record `Answers`:
  it is an input of the embedded function;
* configuration macros and library constants that are not part of `main.cpp`
  (`MBED_CONF_LORA_DUTY_CYCLE_ON`, `MBED_CONF_LORA_APP_PORT`, the
  `lorawan_status_t` codes, the cipher) are fields of `Config`;
* `uint8_t` values are `Nat`, `int16_t` values are `Int`, and the conversion
  `int16_t → uint16_t` is written out as `% 65536`.
-/

namespace SktJoin

/-! ## Types of the stack interface -/

/-- Events delivered by the stack (`lorawan_event_t`). Any code outside the twelve
named enumerators is `UNKNOWN code`. -/
inductive lorawan_event_t where
  | CONNECTED
  | DISCONNECTED
  | TX_DONE
  | TX_TIMEOUT
  | TX_ERROR
  | TX_CRYPTO_ERROR
  | TX_SCHEDULING_ERROR
  | RX_DONE
  | RX_TIMEOUT
  | RX_ERROR
  | JOIN_FAILURE
  | UPLINK_REQUIRED
  | UNKNOWN (code : Nat)
deriving DecidableEq, Repr

/-- Message flags; a flag argument such as `MSG_CONFIRMED_FLAG|MSG_UNCONFIRMED_FLAG`
is the list of the flags or-ed together, in the order written. -/
inductive msg_flag where
  | MSG_UNCONFIRMED_FLAG
  | MSG_CONFIRMED_FLAG
deriving DecidableEq, Repr

/-- Calls into the collaborators, as they appear in `main.cpp`. The callback passed
to `call_every` and `call_in` is always `send_message`; `connect` is always the OTAA
connect (`connect_type = LORAWAN_CONNECTION_OTAA`) with the three OTAA fields;
`stack_init` is the call `lorawan.initialize(&ev_queue)`. -/
inductive Action where
  | setup_trace
  | stack_init
  | add_app_callbacks
  | set_confirmed_msg_retries (count : Nat)
  | enable_adaptive_datarate
  | dispatch_forever
  | send (port : Nat) (data : List Nat) (flags : List msg_flag)
  | receive (port : Nat) (length : Nat) (flags : List msg_flag)
  | connect (dev_eui app_eui app_key : List Nat)
  | disconnect
  | call_every (ms : Nat)
  | call_in (ms : Nat)
  | break_dispatch
  | AES_ECB_encrypt (input key : List Nat) (length : Nat)
  | ds1820_begin
  | ds1820_startConversion
  | ds1820_read
  | abort
deriving DecidableEq, Repr

/-- Build configuration and library items that `main.cpp` uses but does not define. -/
structure Config where
  /-- The macro `MBED_CONF_LORA_DUTY_CYCLE_ON`. -/
  MBED_CONF_LORA_DUTY_CYCLE_ON : Bool
  /-- The macro `MBED_CONF_LORA_APP_PORT`. -/
  MBED_CONF_LORA_APP_PORT : Nat
  /-- The status code `LORAWAN_STATUS_OK`. -/
  LORAWAN_STATUS_OK : Int
  /-- The status code `LORAWAN_STATUS_CONNECT_IN_PROGRESS`. -/
  LORAWAN_STATUS_CONNECT_IN_PROGRESS : Int
  /-- The status code `LORAWAN_STATUS_WOULD_BLOCK`. -/
  LORAWAN_STATUS_WOULD_BLOCK : Int
  /-- The bytes `AES_ECB_encrypt(input, key, output, length)` leaves in `output`. -/
  AES_ECB_encrypt : List Nat → List Nat → Nat → List Nat

/-- What the collaborators answer during one activation of a handler or of
`send_message`. -/
structure Answers where
  /-- Value returned by `lorawan.receive` (an `int16_t`). -/
  receive_ret : Int
  /-- Bytes `lorawan.receive` copied to the start of the destination buffer. -/
  receive_bytes : List Nat
  /-- Content of the uninitialised local `rx_data[255]` before the call. -/
  rx_stale : List Nat
  /-- Value returned by `ds1820.begin()`. -/
  ds1820_begin : Bool
  /-- Bytes `sprintf` wrote to `tx_buffer` for the value read (without the NUL). -/
  tx_text : List Nat
  /-- Value returned by `lorawan.send` (an `int16_t`). -/
  send_ret : Int
deriving DecidableEq, Repr

/-! ## Constants and globals of `main.cpp` -/

def TX_TIMER : Nat := 10000
def MAX_NUMBER_OF_EVENTS : Nat := 10
def CONFIRMED_MSG_RETRY_COUNTER : Nat := 3

def APP_KEY_ALLOC_REQ : Nat := 0x0
def APP_KEY_ALLOC_ANS : Nat := 0x1
def APP_KEY_REPORT_REQ : Nat := 0x2
def APP_KEY_REPORT_ANS : Nat := 0x3

def SKT_JOIN_VERSION : Nat := 0

/-- The globals the event handler reads or writes. -/
structure State where
  in_skt_join : Bool
  deveui : List Nat
  appeui : List Nat
  pseudo_appkey : List Nat
  real_app_key_output : List Nat
  netid : List Nat
  skt_nonce : List Nat
deriving DecidableEq, Repr

/-- The globals as initialised at program start. -/
def State.initial : State where
  in_skt_join := true
  deveui := [0x00, 0x80, 0x00, 0x00, 0x04, 0x00, 0x37, 0xD1]
  appeui := [0x00, 0x00, 0x00, 0x00, 0x00, 0x00, 0x00, 0x0A]
  pseudo_appkey := [0x00, 0x00, 0x00, 0x00, 0x00, 0x00, 0x00, 0x00,
                    0x00, 0x00, 0x00, 0x00, 0x00, 0x00, 0x00, 0x06]
  real_app_key_output := List.replicate 16 0
  netid := [0xd, 0x0, 0x0]
  skt_nonce := [0x0, 0x0, 0x0]

/-- Array read `buf[i]` on a byte buffer held as a list. -/
def at_index (buf : List Nat) (i : Nat) : Nat := buf.getD i 0

/-- Content of a buffer after a callee copied `written` to its start. -/
def overwrite (stale written : List Nat) : List Nat :=
  written ++ stale.drop written.length

/-- Conversion of an `int16_t` value to `uint16_t`. -/
def to_uint16 (v : Int) : Nat := (v % 65536).toNat

/-- Modelled from the spec: the macro `MBED_ASSERT` is defined outside `main.cpp`; an
assertion aborts the process when the asserted expression is false and does nothing
when it is true. -/
def MBED_ASSERT (expr : Bool) : List Action :=
  if expr then [] else [Action.abort]

/-! ## `main` -/

/-- The function `main`. The four arguments are the values returned by
`lorawan.initialize`, `set_confirmed_msg_retries`, `enable_adaptive_datarate` and
`lorawan.connect`; the result is the value returned by `main` (the `return 0` is
reached only when `dispatch_forever` comes back) and the calls made. -/
def main (cfg : Config) (st : State)
    (r_init r_retries r_adr r_connect : Int) : Int × List Action :=
  if r_init ≠ cfg.LORAWAN_STATUS_OK then
    (-1, [Action.setup_trace, Action.stack_init])
  else if r_retries ≠ cfg.LORAWAN_STATUS_OK then
    (-1, [Action.setup_trace, Action.stack_init, Action.add_app_callbacks,
          Action.set_confirmed_msg_retries CONFIRMED_MSG_RETRY_COUNTER])
  else if r_adr ≠ cfg.LORAWAN_STATUS_OK then
    (-1, [Action.setup_trace, Action.stack_init, Action.add_app_callbacks,
          Action.set_confirmed_msg_retries CONFIRMED_MSG_RETRY_COUNTER,
          Action.enable_adaptive_datarate])
  else if r_connect = cfg.LORAWAN_STATUS_OK ∨
      r_connect = cfg.LORAWAN_STATUS_CONNECT_IN_PROGRESS then
    (0, [Action.setup_trace, Action.stack_init, Action.add_app_callbacks,
         Action.set_confirmed_msg_retries CONFIRMED_MSG_RETRY_COUNTER,
         Action.enable_adaptive_datarate,
         Action.connect st.deveui st.appeui st.pseudo_appkey,
         Action.dispatch_forever])
  else
    (-1, [Action.setup_trace, Action.stack_init, Action.add_app_callbacks,
          Action.set_confirmed_msg_retries CONFIRMED_MSG_RETRY_COUNTER,
          Action.enable_adaptive_datarate,
          Action.connect st.deveui st.appeui st.pseudo_appkey])

/-! ## `send_message` and `receive_message` -/

/-- The function `send_message`. It touches none of the globals of `State`
(only `tx_buffer`), so its result is the list of calls it makes. -/
def send_message (cfg : Config) (a : Answers) : List Action :=
  if a.ds1820_begin then
    let retcode : Int := a.send_ret
    [Action.ds1820_begin, Action.ds1820_startConversion, Action.ds1820_read,
     Action.ds1820_startConversion,
     Action.send cfg.MBED_CONF_LORA_APP_PORT a.tx_text [msg_flag.MSG_UNCONFIRMED_FLAG]] ++
    (if retcode < 0 then
      (if retcode = cfg.LORAWAN_STATUS_WOULD_BLOCK then
        (if cfg.MBED_CONF_LORA_DUTY_CYCLE_ON then [Action.call_in 3000] else [])
      else [])
    else [])
  else
    [Action.ds1820_begin]

/-- The function `receive_message`: one `receive` on the application port into
`rx_buffer` (30 bytes); the bytes are only printed. -/
def receive_message (cfg : Config) (_a : Answers) : List Action :=
  [Action.receive cfg.MBED_CONF_LORA_APP_PORT 30
    [msg_flag.MSG_CONFIRMED_FLAG, msg_flag.MSG_UNCONFIRMED_FLAG]]

/-! ## `lora_event_handler` -/

/-- The 16-byte array `aes_input` built in the `DISCONNECTED` branch. -/
def aes_input (st : State) : List Nat :=
  [at_index st.skt_nonce 0, at_index st.skt_nonce 1, at_index st.skt_nonce 2,
   at_index st.netid 0, at_index st.netid 1, at_index st.netid 2,
   0x0, 0x0, 0x0, 0x0, 0x0, 0x0, 0x0, 0x0, 0x0, 0x0]

/-- The function `lora_event_handler`. -/
def lora_event_handler (cfg : Config) (st : State) (event : lorawan_event_t)
    (a : Answers) : State × List Action :=
  match event with
  | .CONNECTED =>
    if st.in_skt_join then
      (st, [Action.send 223 [SKT_JOIN_VERSION, APP_KEY_ALLOC_REQ, 0x0]
              [msg_flag.MSG_CONFIRMED_FLAG]])
    else
      (st, [Action.call_every 10000])
  | .DISCONNECTED =>
    if st.in_skt_join then
      let output := cfg.AES_ECB_encrypt (aes_input st) st.pseudo_appkey 16
      ({ st with in_skt_join := false, real_app_key_output := output },
       [Action.AES_ECB_encrypt (aes_input st) st.pseudo_appkey 16,
        Action.connect st.deveui st.appeui output])
    else
      (st, [Action.break_dispatch])
  | .TX_DONE => (st, [])
  | .TX_TIMEOUT => (st, [])
  | .TX_ERROR => (st, [])
  | .TX_CRYPTO_ERROR => (st, [])
  | .TX_SCHEDULING_ERROR => (st, [])
  | .RX_DONE =>
    if st.in_skt_join then
      let rx_data := overwrite a.rx_stale a.receive_bytes
      let retcode : Nat := to_uint16 a.receive_ret
      let rx := Action.receive 223 255
        [msg_flag.MSG_CONFIRMED_FLAG, msg_flag.MSG_UNCONFIRMED_FLAG]
      if retcode < 3 then (st, [rx])
      else if at_index rx_data 1 = APP_KEY_ALLOC_ANS ∧ at_index rx_data 2 = 0x3 ∧
          retcode = 6 then
        ({ st with skt_nonce := [at_index rx_data 3, at_index rx_data 4, at_index rx_data 5] },
         [rx, Action.send 223 [SKT_JOIN_VERSION, APP_KEY_REPORT_REQ, 0x0]
                [msg_flag.MSG_CONFIRMED_FLAG]])
      else if at_index rx_data 1 = APP_KEY_REPORT_ANS then
        (st, [rx, Action.disconnect])
      else (st, [rx])
    else
      (st, receive_message cfg a)
  | .RX_TIMEOUT => (st, [])
  | .RX_ERROR => (st, [])
  | .JOIN_FAILURE => (st, [])
  | .UPLINK_REQUIRED =>
    if cfg.MBED_CONF_LORA_DUTY_CYCLE_ON then (st, send_message cfg a) else (st, [])
  | .UNKNOWN _ =>
    -- the asserted expression is the string literal, a non-null pointer
    (st, MBED_ASSERT true)

/-- The handler fed a sequence of events, each with the collaborators' answers:
final globals and all calls made, in order. -/
def run_events (cfg : Config) (st : State) :
    List (lorawan_event_t × Answers) → State × List Action
  | [] => (st, [])
  | (ev, a) :: rest =>
    let r := lora_event_handler cfg st ev a
    let r2 := run_events cfg r.1 rest
    (r2.1, r.2 ++ r2.2)

/-! ## The event queue

`ev_queue` runs three kinds of work on one thread: stack events (handed to
`lora_event_handler`), firings of the repeating timers registered with
`call_every`, and firings of the one-shot timers registered with `call_in`.
Both timer kinds call `send_message`. -/

/-- The program under the event queue: the globals, how many repeating timers are
registered, how many one-shot timers wait to fire, and whether the dispatch loop
still runs. -/
structure System where
  app : State
  periodic : Nat
  pending : Nat
  dispatching : Bool
deriving DecidableEq, Repr

/-- The program when `main` enters `dispatch_forever`. -/
def System.initial : System where
  app := State.initial
  periodic := 0
  pending := 0
  dispatching := true

/-- One unit of work taken from the event queue. -/
inductive Step where
  | stack (event : lorawan_event_t) (a : Answers)
  | timer (a : Answers)
  | retry (a : Answers)
deriving DecidableEq, Repr

def is_call_every : Action → Bool
  | .call_every _ => true
  | _ => false

def is_call_in : Action → Bool
  | .call_in _ => true
  | _ => false

def is_connect : Action → Bool
  | .connect _ _ _ => true
  | _ => false

def is_derivation : Action → Bool
  | .AES_ECB_encrypt _ _ _ => true
  | _ => false

def is_disconnect : Action → Bool
  | .disconnect => true
  | _ => false

def is_send : Action → Bool
  | .send _ _ _ => true
  | _ => false

/-- Bookkeeping of the queue after a callback made the calls `acts`. -/
def enqueue (q : System) (st : State) (acts : List Action) : System where
  app := st
  periodic := q.periodic + acts.countP is_call_every
  pending := q.pending + acts.countP is_call_in
  dispatching := q.dispatching && !(acts.contains Action.break_dispatch)

/-- One unit of work. A timer can fire only if it was registered; nothing runs
once the dispatch loop was stopped. -/
def sys_step (cfg : Config) (q : System) (s : Step) : System × List Action :=
  if q.dispatching then
    match s with
    | .stack ev a =>
      let r := lora_event_handler cfg q.app ev a
      (enqueue q r.1 r.2, r.2)
    | .timer a =>
      if q.periodic = 0 then (q, [])
      else (enqueue q q.app (send_message cfg a), send_message cfg a)
    | .retry a =>
      if q.pending = 0 then (q, [])
      else (enqueue { q with pending := q.pending - 1 } q.app (send_message cfg a),
            send_message cfg a)
  else (q, [])

/-- A sequence of units of work: final system and all calls made, in order. -/
def sys_run (cfg : Config) (q : System) : List Step → System × List Action
  | [] => (q, [])
  | s :: rest =>
    let r := sys_step cfg q s
    let r2 := sys_run cfg r.1 rest
    (r2.1, r.2 ++ r2.2)

/-! ## Sample inputs for closed examples -/

/-- A stand-in for the cipher parameter (byte-wise xor of block and key); it is
not AES and only serves to instantiate `Config` in closed examples. -/
def sample_cipher (input key : List Nat) (length : Nat) : List Nat :=
  (List.zipWith Nat.xor input key).take length

/-- A configuration with duty-cycle enforcement enabled. -/
def config_duty_on : Config where
  MBED_CONF_LORA_DUTY_CYCLE_ON := true
  MBED_CONF_LORA_APP_PORT := 15
  LORAWAN_STATUS_OK := 0
  LORAWAN_STATUS_CONNECT_IN_PROGRESS := -1016
  LORAWAN_STATUS_WOULD_BLOCK := -1001
  AES_ECB_encrypt := sample_cipher

/-- A configuration with duty-cycle enforcement disabled. -/
def config_duty_off : Config where
  MBED_CONF_LORA_DUTY_CYCLE_ON := false
  MBED_CONF_LORA_APP_PORT := 15
  LORAWAN_STATUS_OK := 0
  LORAWAN_STATUS_CONNECT_IN_PROGRESS := -1016
  LORAWAN_STATUS_WOULD_BLOCK := -1001
  AES_ECB_encrypt := sample_cipher

/-- Answers of an activation in which nothing is received, the sensor is present
and the send succeeds. -/
def quiet : Answers where
  receive_ret := 0
  receive_bytes := []
  rx_stale := []
  ds1820_begin := true
  tx_text := [0x44, 0x75, 0x6d, 0x6d, 0x79]
  send_ret := 5

/-- Answers in which `lorawan.receive` delivers `frame` (its length is the value
returned). -/
def rx_frame (a : Answers) (frame : List Nat) : Answers :=
  { a with receive_ret := (frame.length : Int), receive_bytes := frame }

/-- Answers in which `lorawan.send` reports `LORAWAN_STATUS_WOULD_BLOCK`. -/
def would_block (cfg : Config) (a : Answers) : Answers :=
  { a with ds1820_begin := true, send_ret := cfg.LORAWAN_STATUS_WOULD_BLOCK }

/-- A call of `send_message`: its first statement is the call `ds1820.begin()`, which
is made nowhere else. -/
def is_send_message_call : Action → Bool
  | .ds1820_begin => true
  | _ => false

def is_connected_step : Step → Bool
  | .stack .CONNECTED _ => true
  | _ => false

/-- The specification's `Provisioned`, read on the sequence of work done since
program start: a `CONNECTED` event has been delivered after the (first)
`DISCONNECTED` event, the one on which the derived-key reconnect is issued. -/
def provisioned : List Step → Bool
  | [] => false
  | .stack .DISCONNECTED _ :: rest => rest.any is_connected_step
  | _ :: rest => provisioned rest

/-- Answers in which `lorawan.receive` fails: it returns the negative `code` and
writes nothing, so the buffer keeps its prior content `stale`. -/
def rx_error (a : Answers) (code : Int) (stale : List Nat) : Answers :=
  { a with receive_ret := code, receive_bytes := [], rx_stale := stale }

/-- A registration with the event queue, repeating or one-shot. -/
def is_scheduling : Action → Bool
  | .call_every _ => true
  | .call_in _ => true
  | _ => false

/-- The events handled before the first `DISCONNECTED` event of a sequence. -/
def before_first_disconnected (evs : List (lorawan_event_t × Answers)) :
    List (lorawan_event_t × Answers) :=
  evs.takeWhile (fun e => !decide (e.1 = lorawan_event_t.DISCONNECTED))

def is_uplink_step : Step → Bool
  | .stack .UPLINK_REQUIRED _ => true
  | _ => false

def is_retry_step : Step → Bool
  | .retry _ => true
  | _ => false

/-- With the globals `st` at hand, the work `steps` still to come does not reach
`Provisioned`: while `in_skt_join` is true this is `provisioned steps = false`; once
the flag is false (the reconnect was issued) no `CONNECTED` event may come. -/
def before_provisioned (st : State) (steps : List Step) : Bool :=
  if st.in_skt_join then !provisioned steps else !steps.any is_connected_step

/-! ## Auxiliary facts -/

/-- A confirmed send: what the handshake uses for `ALLOC_REQ` and `REPORT_REQ`. -/
def is_confirmed_send : Action → Bool
  | .send _ _ flags => flags.contains msg_flag.MSG_CONFIRMED_FLAG
  | _ => false

/-- An unconfirmed send: what `send_message` uses for telemetry. -/
def is_unconfirmed_send : Action → Bool
  | .send _ _ flags => flags.contains msg_flag.MSG_UNCONFIRMED_FLAG
  | _ => false

theorem at_index_overwrite (stale written : List Nat) (i : Nat)
    (h : i < written.length) :
    at_index (overwrite stale written) i = at_index written i := by
  unfold at_index overwrite
  rw [List.getD_append _ _ _ _ h]

theorem to_uint16_of_length (n : Nat) (h : n ≤ 255) : to_uint16 (n : Int) = n := by
  unfold to_uint16
  omega

theorem run_events_append (cfg : Config) (st : State)
    (xs ys : List (lorawan_event_t × Answers)) :
    run_events cfg st (xs ++ ys) =
      ((run_events cfg (run_events cfg st xs).1 ys).1,
       (run_events cfg st xs).2 ++ (run_events cfg (run_events cfg st xs).1 ys).2) := by
  induction xs generalizing st with
  | nil => simp [run_events]
  | cons x xs ih =>
    obtain ⟨ev, a⟩ := x
    simp [run_events, ih, List.append_assoc]

/-- The calls of `send_message` are sensor calls, one unconfirmed send and at most
one `call_in 3000`. -/
theorem send_message_actions (cfg : Config) (a : Answers) (act : Action)
    (h : act ∈ send_message cfg a) :
    is_connect act = false ∧ is_derivation act = false ∧ is_confirmed_send act = false ∧
    is_call_every act = false ∧ is_disconnect act = false ∧ act ≠ Action.break_dispatch := by
  unfold send_message at h
  split at h
  · simp only [List.mem_append, List.mem_cons, List.mem_singleton, List.not_mem_nil,
      or_false] at h
    rcases h with (h | h | h | h | h) | h
    · subst h; simp [is_connect, is_derivation, is_confirmed_send, is_call_every, is_disconnect]
    · subst h; simp [is_connect, is_derivation, is_confirmed_send, is_call_every, is_disconnect]
    · subst h; simp [is_connect, is_derivation, is_confirmed_send, is_call_every, is_disconnect]
    · subst h; simp [is_connect, is_derivation, is_confirmed_send, is_call_every, is_disconnect]
    · subst h; simp [is_connect, is_derivation, is_confirmed_send, is_call_every, is_disconnect]
    · split at h
      · split at h
        · split at h
          · simp only [List.mem_singleton] at h
            subst h
            simp [is_connect, is_derivation, is_confirmed_send, is_call_every, is_disconnect]
          · simp at h
        · simp at h
      · simp at h
  · simp only [List.mem_singleton] at h
    subst h
    simp [is_connect, is_derivation, is_confirmed_send, is_call_every, is_disconnect]

/-- Once `in_skt_join` is false the handler never changes the globals and makes no
connect request, no key derivation, no confirmed send and no disconnect request. -/
theorem handler_after_join (cfg : Config) (st : State) (ev : lorawan_event_t)
    (a : Answers) (h : st.in_skt_join = false) :
    (lora_event_handler cfg st ev a).1 = st ∧
    ∀ act ∈ (lora_event_handler cfg st ev a).2,
      is_connect act = false ∧ is_derivation act = false ∧
      is_confirmed_send act = false ∧ is_disconnect act = false := by
  cases ev
  case UPLINK_REQUIRED =>
    simp only [lora_event_handler]
    split
    · refine ⟨rfl, fun act hact => ?_⟩
      have := send_message_actions cfg a act hact
      exact ⟨this.1, this.2.1, this.2.2.1, this.2.2.2.2.1⟩
    · simp
  all_goals
    simp [lora_event_handler, h, receive_message, MBED_ASSERT, is_connect, is_derivation,
      is_confirmed_send, is_disconnect]

theorem run_after_join (cfg : Config) (st : State)
    (evs : List (lorawan_event_t × Answers)) (h : st.in_skt_join = false) :
    (run_events cfg st evs).1 = st ∧
    ∀ act ∈ (run_events cfg st evs).2,
      is_connect act = false ∧ is_derivation act = false ∧
      is_confirmed_send act = false ∧ is_disconnect act = false := by
  induction evs with
  | nil => simp [run_events]
  | cons x xs ih =>
    obtain ⟨ev, a⟩ := x
    have hh := handler_after_join cfg st ev a h
    simp only [run_events, hh.1]
    refine ⟨ih.1, fun act hact => ?_⟩
    rcases List.mem_append.1 hact with h1 | h1
    · exact hh.2 act h1
    · exact ih.2 act h1

/-- Handling `DISCONNECTED` always leaves `in_skt_join` false. -/
theorem disconnected_clears_flag (cfg : Config) (st : State) (a : Answers) :
    (lora_event_handler cfg st lorawan_event_t.DISCONNECTED a).1.in_skt_join = false := by
  cases h : st.in_skt_join <;> simp [lora_event_handler, h]

/-- While `in_skt_join` is true, an event other than `DISCONNECTED` keeps the flag and
the identity globals, and makes no connect request and no key derivation. -/
theorem handler_in_join (cfg : Config) (st : State) (ev : lorawan_event_t)
    (a : Answers) (h : st.in_skt_join = true) (hev : ev ≠ lorawan_event_t.DISCONNECTED) :
    (lora_event_handler cfg st ev a).1.in_skt_join = true ∧
    (lora_event_handler cfg st ev a).1.deveui = st.deveui ∧
    (lora_event_handler cfg st ev a).1.appeui = st.appeui ∧
    (lora_event_handler cfg st ev a).1.pseudo_appkey = st.pseudo_appkey ∧
    (lora_event_handler cfg st ev a).1.netid = st.netid ∧
    ∀ act ∈ (lora_event_handler cfg st ev a).2,
      is_connect act = false ∧ is_derivation act = false := by
  cases ev <;> try simp at hev
  all_goals try (simp [lora_event_handler, h, MBED_ASSERT, is_connect, is_derivation]; done)
  case RX_DONE =>
    simp only [lora_event_handler, h, if_true]
    split
    · simp [h, is_connect, is_derivation]
    · split
      · simp [h, is_connect, is_derivation]
      · split <;> simp [h, is_connect, is_derivation]
  case UPLINK_REQUIRED =>
    simp only [lora_event_handler]
    split
    · refine ⟨h, rfl, rfl, rfl, rfl, fun act hact => ?_⟩
      have := send_message_actions cfg a act hact
      exact ⟨this.1, this.2.1⟩
    · simp [h]

theorem filter_eq_nil_of_all_false (p : Action → Bool) (l : List Action)
    (h : ∀ act ∈ l, p act = false) : l.filter p = [] := by
  rw [List.filter_eq_nil_iff]
  intro act hact
  simp [h act hact]

theorem countP_eq_zero_of_all_false (p : Action → Bool) (l : List Action)
    (h : ∀ act ∈ l, p act = false) : l.countP p = 0 := by
  rw [List.countP_eq_zero]
  intro act hact
  simp [h act hact]

/-- A run without `DISCONNECTED` started while `in_skt_join` is true keeps the flag
and the identity globals, and makes no connect request and no key derivation. -/
theorem run_in_join (cfg : Config) (st : State)
    (evs : List (lorawan_event_t × Answers)) (h : st.in_skt_join = true)
    (hno : ∀ e ∈ evs, e.1 ≠ lorawan_event_t.DISCONNECTED) :
    (run_events cfg st evs).1.in_skt_join = true ∧
    (run_events cfg st evs).1.deveui = st.deveui ∧
    (run_events cfg st evs).1.appeui = st.appeui ∧
    (run_events cfg st evs).1.pseudo_appkey = st.pseudo_appkey ∧
    (run_events cfg st evs).1.netid = st.netid ∧
    ∀ act ∈ (run_events cfg st evs).2,
      is_connect act = false ∧ is_derivation act = false := by
  induction evs generalizing st with
  | nil => simp [run_events, h]
  | cons x xs ih =>
    obtain ⟨ev, a⟩ := x
    have hev : ev ≠ lorawan_event_t.DISCONNECTED := hno (ev, a) (List.mem_cons_self _ _)
    have hh := handler_in_join cfg st ev a h hev
    have ih2 := ih (lora_event_handler cfg st ev a).1 hh.1
      (fun e he => hno e (List.mem_cons_of_mem _ he))
    simp only [run_events]
    refine ⟨ih2.1, ih2.2.1.trans hh.2.1, ih2.2.2.1.trans hh.2.2.1,
      ih2.2.2.2.1.trans hh.2.2.2.1, ih2.2.2.2.2.1.trans hh.2.2.2.2.1, fun act hact => ?_⟩
    rcases List.mem_append.1 hact with h1 | h1
    · exact hh.2.2.2.2.2 act h1
    · exact ih2.2.2.2.2.2 act h1

/-- The `DISCONNECTED` branch taken while `in_skt_join` is true. -/
theorem handler_disconnected_in_join (cfg : Config) (st : State) (a : Answers)
    (h : st.in_skt_join = true) :
    lora_event_handler cfg st lorawan_event_t.DISCONNECTED a =
      ({ st with in_skt_join := false,
                 real_app_key_output :=
                   cfg.AES_ECB_encrypt (aes_input st) st.pseudo_appkey 16 },
       [Action.AES_ECB_encrypt (aes_input st) st.pseudo_appkey 16,
        Action.connect st.deveui st.appeui
          (cfg.AES_ECB_encrypt (aes_input st) st.pseudo_appkey 16)]) := by
  simp [lora_event_handler, h]

/-- With duty-cycle enforcement disabled the handler never calls `send_message` and
never registers a one-shot timer. -/
theorem handler_duty_off (cfg : Config) (st : State) (ev : lorawan_event_t)
    (a : Answers) (hduty : cfg.MBED_CONF_LORA_DUTY_CYCLE_ON = false) :
    ∀ act ∈ (lora_event_handler cfg st ev a).2,
      is_send_message_call act = false ∧ is_unconfirmed_send act = false ∧
      is_call_in act = false := by
  intro act hact
  cases ev
  case RX_DONE =>
    simp only [lora_event_handler] at hact
    split at hact
    · split at hact
      · simp at hact; subst hact; simp [is_send_message_call, is_unconfirmed_send, is_call_in]
      · split at hact
        · simp at hact
          rcases hact with h | h <;> subst h <;>
            simp [is_send_message_call, is_unconfirmed_send, is_call_in]
        · split at hact
          · simp at hact
            rcases hact with h | h <;> subst h <;>
              simp [is_send_message_call, is_unconfirmed_send, is_call_in]
          · simp at hact; subst hact
            simp [is_send_message_call, is_unconfirmed_send, is_call_in]
    · simp [receive_message] at hact; subst hact
      simp [is_send_message_call, is_unconfirmed_send, is_call_in]
  case DISCONNECTED =>
    simp only [lora_event_handler] at hact
    split at hact
    · simp at hact
      rcases hact with h | h <;> subst h <;>
        simp [is_send_message_call, is_unconfirmed_send, is_call_in]
    · simp at hact; subst hact
      simp [is_send_message_call, is_unconfirmed_send, is_call_in]
  case CONNECTED =>
    simp only [lora_event_handler] at hact
    split at hact <;> simp at hact <;> subst hact <;>
      simp [is_send_message_call, is_unconfirmed_send, is_call_in]
  all_goals simp [lora_event_handler, hduty, MBED_ASSERT] at hact

/-- The repeating timer is registered only by `CONNECTED` handled with `in_skt_join`
false. -/
theorem handler_call_every (cfg : Config) (st : State) (ev : lorawan_event_t)
    (a : Answers)
    (h : ev ≠ lorawan_event_t.CONNECTED ∨ st.in_skt_join = true) :
    ∀ act ∈ (lora_event_handler cfg st ev a).2, is_call_every act = false := by
  intro act hact
  cases ev
  case UPLINK_REQUIRED =>
    simp only [lora_event_handler] at hact
    split at hact
    · exact (send_message_actions cfg a act hact).2.2.2.1
    · simp at hact
  case CONNECTED =>
    have hs : st.in_skt_join = true := by
      rcases h with h | h
      · exact absurd rfl h
      · exact h
    simp [lora_event_handler, hs] at hact
    subst hact
    simp [is_call_every]
  case RX_DONE =>
    simp only [lora_event_handler] at hact
    split at hact
    · split at hact
      · simp at hact; subst hact; simp [is_call_every]
      · split at hact
        · simp at hact
          rcases hact with h | h <;> subst h <;> simp [is_call_every]
        · split at hact
          · simp at hact
            rcases hact with h | h <;> subst h <;> simp [is_call_every]
          · simp at hact; subst hact; simp [is_call_every]
    · simp [receive_message] at hact; subst hact; simp [is_call_every]
  case DISCONNECTED =>
    simp only [lora_event_handler] at hact
    split at hact
    · simp at hact
      rcases hact with h | h <;> subst h <;> simp [is_call_every]
    · simp at hact; subst hact; simp [is_call_every]
  all_goals simp [lora_event_handler, MBED_ASSERT] at hact

/-- Nothing runs once the dispatch loop was stopped. -/
theorem sys_run_stopped (cfg : Config) (q : System) (steps : List Step)
    (h : q.dispatching = false) : sys_run cfg q steps = (q, []) := by
  induction steps with
  | nil => simp [sys_run]
  | cons s rest ih => simp [sys_run, sys_step, h, ih]

/-- The globals after one unit of work are those the handler leaves (a timer firing
does not touch them). -/
theorem sys_step_app (cfg : Config) (q : System) (s : Step) :
    (sys_step cfg q s).1.app = q.app ∨
    ∃ ev a, s = Step.stack ev a ∧
      (sys_step cfg q s).1.app = (lora_event_handler cfg q.app ev a).1 := by
  cases hd : q.dispatching with
  | false => left; simp [sys_step, hd]
  | true =>
    cases s with
    | timer a =>
      left
      simp only [sys_step, hd, if_true]
      split <;> simp [enqueue]
    | retry a =>
      left
      simp only [sys_step, hd, if_true]
      split <;> simp [enqueue]
    | stack ev a =>
      right
      exact ⟨ev, a, rfl, by simp [sys_step, hd, enqueue]⟩

/-- The calls of `send_message` when the sensor is present, the send reports
`LORAWAN_STATUS_WOULD_BLOCK` (a negative code) and duty-cycle enforcement is on. -/
theorem send_message_would_block (cfg : Config) (a : Answers)
    (hduty : cfg.MBED_CONF_LORA_DUTY_CYCLE_ON = true)
    (hneg : cfg.LORAWAN_STATUS_WOULD_BLOCK < 0) :
    send_message cfg (would_block cfg a) =
      [Action.ds1820_begin, Action.ds1820_startConversion, Action.ds1820_read,
       Action.ds1820_startConversion,
       Action.send cfg.MBED_CONF_LORA_APP_PORT a.tx_text [msg_flag.MSG_UNCONFIRMED_FLAG],
       Action.call_in 3000] := by
  simp [send_message, would_block, hduty, hneg]

/-- A chain of retries that all meet `LORAWAN_STATUS_WOULD_BLOCK`: each firing
consumes the waiting one-shot timer and registers a new one. -/
theorem retry_chain (cfg : Config) (rest : List Answers) (q : System)
    (hduty : cfg.MBED_CONF_LORA_DUTY_CYCLE_ON = true)
    (hneg : cfg.LORAWAN_STATUS_WOULD_BLOCK < 0)
    (hdisp : q.dispatching = true) (hpend : q.pending = 1) :
    (sys_run cfg q (rest.map (fun b => Step.retry (would_block cfg b)))).2.filter
        is_call_in = List.replicate rest.length (Action.call_in 3000) ∧
    (sys_run cfg q (rest.map (fun b => Step.retry (would_block cfg b)))).1.pending = 1 := by
  induction rest generalizing q with
  | nil => simp [sys_run, hpend]
  | cons b bs ih =>
    have hm := send_message_would_block cfg b hduty hneg
    have hstep : sys_step cfg q (Step.retry (would_block cfg b)) =
        (enqueue { q with pending := q.pending - 1 } q.app
            (send_message cfg (would_block cfg b)),
         send_message cfg (would_block cfg b)) := by
      simp [sys_step, hdisp, hpend]
    have hq := ih (enqueue { q with pending := q.pending - 1 } q.app
        (send_message cfg (would_block cfg b)))
      (by simp [enqueue, hdisp, hm])
      (by simp [enqueue, hpend, hm, is_call_in, List.countP_cons])
    simp only [List.map_cons, sys_run, hstep, List.filter_append, hq.1, hq.2,
      List.length_cons, and_true]
    rw [hm]
    simp [is_call_in, List.filter_cons, List.replicate_succ]

/-- Once a `DISCONNECTED` event has been handled, `in_skt_join` is false for good. -/
theorem flag_false_after_disconnected (cfg : Config) (st : State)
    (evs : List (lorawan_event_t × Answers))
    (h : evs.any (fun e => decide (e.1 = lorawan_event_t.DISCONNECTED)) = true) :
    (run_events cfg st evs).1.in_skt_join = false := by
  induction evs generalizing st with
  | nil => simp at h
  | cons x xs ih =>
    obtain ⟨ev, a⟩ := x
    by_cases hev : ev = lorawan_event_t.DISCONNECTED
    · subst hev
      have hf := disconnected_clears_flag cfg st a
      simp only [run_events]
      rw [(run_after_join cfg _ xs hf).1]
      exact hf
    · simp only [List.any_cons, hev, decide_False, Bool.false_or] at h
      simp only [run_events]
      exact ih _ h

/-- A `call_every` made by the handler comes from the `CONNECTED` branch taken with
`in_skt_join` false, and its period is 10000 ms. -/
theorem handler_call_every_only (cfg : Config) (st : State) (ev : lorawan_event_t)
    (a : Answers) (act : Action) (hact : act ∈ (lora_event_handler cfg st ev a).2)
    (hce : is_call_every act = true) :
    ev = lorawan_event_t.CONNECTED ∧ st.in_skt_join = false ∧
    act = Action.call_every 10000 := by
  have hev : ev = lorawan_event_t.CONNECTED := by
    by_contra hne
    have := handler_call_every cfg st ev a (Or.inl hne) act hact
    rw [this] at hce
    exact Bool.false_ne_true hce
  have hst : st.in_skt_join = false := by
    cases hs : st.in_skt_join with
    | false => rfl
    | true =>
      have := handler_call_every cfg st ev a (Or.inr hs) act hact
      rw [this] at hce
      exact absurd hce Bool.false_ne_true
  subst hev
  refine ⟨rfl, hst, ?_⟩
  simpa [lora_event_handler, hst] using hact

/-- Every `call_every` in a run of the handler is `call_every 10000` and is made by
a `CONNECTED` event that finds `in_skt_join` false. -/
theorem call_every_origin (cfg : Config) (evs : List (lorawan_event_t × Answers))
    (st : State) (act : Action) (hact : act ∈ (run_events cfg st evs).2)
    (hce : is_call_every act = true) :
    act = Action.call_every 10000 ∧
    ∃ (pre : List (lorawan_event_t × Answers)) (a : Answers)
      (post : List (lorawan_event_t × Answers)),
      evs = pre ++ (lorawan_event_t.CONNECTED, a) :: post ∧
      (run_events cfg st pre).1.in_skt_join = false := by
  induction evs generalizing st with
  | nil => simp [run_events] at hact
  | cons x xs ih =>
    obtain ⟨ev, b⟩ := x
    simp only [run_events] at hact
    rcases List.mem_append.1 hact with h | h
    · obtain ⟨hev, hst, hval⟩ := handler_call_every_only cfg st ev b act h hce
      subst hev
      exact ⟨hval, [], b, xs, rfl, by simpa [run_events] using hst⟩
    · obtain ⟨hval, pre, a, post, hsplit, hflag⟩ := ih _ h
      refine ⟨hval, (ev, b) :: pre, a, post, by simp [hsplit], ?_⟩
      simpa [run_events] using hflag

/-- Started with `in_skt_join` true, a run that ends with the flag false has issued
the connect request. -/
theorem flag_cleared_has_connect (cfg : Config) (evs : List (lorawan_event_t × Answers))
    (st : State) (hjoin : st.in_skt_join = true)
    (hend : (run_events cfg st evs).1.in_skt_join = false) :
    (run_events cfg st evs).2.any is_connect = true := by
  induction evs generalizing st with
  | nil =>
    simp only [run_events] at hend
    rw [hjoin] at hend
    exact absurd hend (by decide)
  | cons x xs ih =>
    obtain ⟨ev, b⟩ := x
    by_cases hev : ev = lorawan_event_t.DISCONNECTED
    · subst hev
      simp [run_events, handler_disconnected_in_join cfg st b hjoin, is_connect]
    · have hh := handler_in_join cfg st ev b hjoin hev
      simp only [run_events] at hend
      have := ih _ hh.1 hend
      simp only [run_events, List.any_append, this, Bool.or_true]

/-- Outcome of `RX_DONE` during the handshake when `lorawan.receive` returns a
negative `int16_t`: stored in the `uint16_t retcode` it is at least 32768, so the
guard `retcode < 3` lets it through and the stale buffer is inspected; the
`ALLOC_ANS` branch cannot be taken (`retcode` is not 6), the `REPORT_ANS` branch
is taken exactly when the stale byte 1 is 3. The trace loop that prints `retcode`
bytes of `rx_data` before the guard is tracing and is not part of the embedding; in
this case it reads past the 255-byte buffer. -/
theorem receive_error_outcome (cfg : Config) (st : State) (a : Answers) (code : Int)
    (stale : List Nat) (hjoin : st.in_skt_join = true)
    (hlo : -32768 ≤ code) (hneg : code < 0) :
    lora_event_handler cfg st lorawan_event_t.RX_DONE (rx_error a code stale) =
      (st,
       if at_index stale 1 = 0x3 then
         [Action.receive 223 255
            [msg_flag.MSG_CONFIRMED_FLAG, msg_flag.MSG_UNCONFIRMED_FLAG],
          Action.disconnect]
       else
         [Action.receive 223 255
            [msg_flag.MSG_CONFIRMED_FLAG, msg_flag.MSG_UNCONFIRMED_FLAG]]) := by
  have hval : 32768 ≤ to_uint16 code := by
    unfold to_uint16
    omega
  have h3 : ¬ to_uint16 code < 3 := by omega
  have h6 : to_uint16 code ≠ 6 := by omega
  by_cases h1 : at_index stale 1 = 3 <;>
    simp [lora_event_handler, hjoin, rx_error, overwrite, h3, h6, h1,
      APP_KEY_ALLOC_ANS, APP_KEY_REPORT_ANS]

/-- The connect requests and key derivations of a run started with `in_skt_join`
true: none without a `DISCONNECTED` event, otherwise exactly the derivation on the
block built from the nonce stored when the first `DISCONNECTED` arrives and the
connect request carrying its output. -/
theorem reconnect_of_run (cfg : Config) (evs : List (lorawan_event_t × Answers))
    (st : State) (hjoin : st.in_skt_join = true) :
    (run_events cfg st evs).2.filter is_connect =
      (if evs.any (fun e => decide (e.1 = lorawan_event_t.DISCONNECTED)) = true then
        [Action.connect st.deveui st.appeui
          (cfg.AES_ECB_encrypt
            (aes_input { st with skt_nonce :=
              (run_events cfg st (before_first_disconnected evs)).1.skt_nonce })
            st.pseudo_appkey 16)]
      else []) ∧
    (run_events cfg st evs).2.filter is_derivation =
      (if evs.any (fun e => decide (e.1 = lorawan_event_t.DISCONNECTED)) = true then
        [Action.AES_ECB_encrypt
          (aes_input { st with skt_nonce :=
            (run_events cfg st (before_first_disconnected evs)).1.skt_nonce })
          st.pseudo_appkey 16]
      else []) := by
  induction evs generalizing st with
  | nil => simp [run_events]
  | cons x xs ih =>
    obtain ⟨ev, b⟩ := x
    by_cases hev : ev = lorawan_event_t.DISCONNECTED
    · subst hev
      have hpost := run_after_join cfg
        (lora_event_handler cfg st lorawan_event_t.DISCONNECTED b).1 xs
        (disconnected_clears_flag cfg st b)
      have h1 := filter_eq_nil_of_all_false is_connect _
        (fun act hact => (hpost.2 act hact).1)
      have h2 := filter_eq_nil_of_all_false is_derivation _
        (fun act hact => (hpost.2 act hact).2.1)
      simp only [run_events, List.filter_append, h1, h2, List.append_nil]
      rw [handler_disconnected_in_join cfg st b hjoin]
      simp [is_connect, is_derivation, before_first_disconnected, run_events, aes_input]
    · have hh := handler_in_join cfg st ev b hjoin hev
      have h1 := filter_eq_nil_of_all_false is_connect _
        (fun act hact => (hh.2.2.2.2.2 act hact).1)
      have h2 := filter_eq_nil_of_all_false is_derivation _
        (fun act hact => (hh.2.2.2.2.2 act hact).2)
      have hi := ih (lora_event_handler cfg st ev b).1 hh.1
      have htw : before_first_disconnected ((ev, b) :: xs) =
          (ev, b) :: before_first_disconnected xs := by
        simp [before_first_disconnected, hev]
      simp only [run_events, List.filter_append, h1, h2, List.nil_append, List.any_cons,
        hev, decide_False, Bool.false_or, htw]
      rw [hi.1, hi.2]
      simp [aes_input, hh.2.1, hh.2.2.1, hh.2.2.2.1, hh.2.2.2.2.1]

theorem provisioned_of_no_connected (steps : List Step)
    (h : steps.any is_connected_step = false) : provisioned steps = false := by
  induction steps with
  | nil => rfl
  | cons s rest ih =>
    simp only [List.any_cons, Bool.or_eq_false_iff] at h
    cases s with
    | timer a => simpa [provisioned] using ih h.2
    | retry a => simpa [provisioned] using ih h.2
    | stack ev a =>
      cases ev
      case DISCONNECTED => simpa [provisioned] using h.2
      all_goals simpa [provisioned] using ih h.2

theorem provisioned_tail (s : Step) (rest : List Step)
    (h : provisioned (s :: rest) = false) : provisioned rest = false := by
  cases s with
  | timer a => simpa [provisioned] using h
  | retry a => simpa [provisioned] using h
  | stack ev a =>
    cases ev
    case DISCONNECTED =>
      exact provisioned_of_no_connected rest (by simpa [provisioned] using h)
    all_goals simpa [provisioned] using h

/-- The handler calls `send_message` only for `UPLINK_REQUIRED` with duty-cycle
enforcement enabled; otherwise it makes no telemetry send and registers no one-shot
timer. -/
theorem handler_no_telemetry (cfg : Config) (st : State) (ev : lorawan_event_t)
    (a : Answers)
    (h : cfg.MBED_CONF_LORA_DUTY_CYCLE_ON = false ∨ ev ≠ lorawan_event_t.UPLINK_REQUIRED) :
    ∀ act ∈ (lora_event_handler cfg st ev a).2,
      is_send_message_call act = false ∧ is_unconfirmed_send act = false ∧
      is_call_in act = false := by
  rcases h with h | h
  · exact handler_duty_off cfg st ev a h
  · have heq : lora_event_handler cfg st ev a =
        lora_event_handler { cfg with MBED_CONF_LORA_DUTY_CYCLE_ON := false } st ev a := by
      cases ev
      case UPLINK_REQUIRED => exact absurd rfl h
      all_goals rfl
    rw [heq]
    exact handler_duty_off _ st ev a rfl

/-- One unit of work done while the repeating timer is not registered and
`Provisioned` is not reached by it. -/
theorem sys_step_before (cfg : Config) (q : System) (s : Step)
    (hper : q.periodic = 0)
    (hs : is_connected_step s = false ∨ q.app.in_skt_join = true) :
    (sys_step cfg q s).1.periodic = 0 ∧
    (∀ act ∈ (sys_step cfg q s).2, is_call_every act = false) ∧
    ((cfg.MBED_CONF_LORA_DUTY_CYCLE_ON = false ∨ is_uplink_step s = false) →
      q.pending = 0 →
      (sys_step cfg q s).1.pending = 0 ∧
      ∀ act ∈ (sys_step cfg q s).2,
        is_send_message_call act = false ∧ is_unconfirmed_send act = false) ∧
    ((∃ act ∈ (sys_step cfg q s).2, is_send_message_call act = true) →
      (is_uplink_step s = true ∧ cfg.MBED_CONF_LORA_DUTY_CYCLE_ON = true) ∨
      (is_retry_step s = true ∧ 0 < q.pending)) := by
  cases hd : q.dispatching with
  | false => simp [sys_step, hd, hper]
  | true =>
    cases s with
    | timer a => simp [sys_step, hd, hper]
    | retry a =>
      by_cases hp : q.pending = 0
      · simp [sys_step, hd, hper, hp]
      · have hsm := send_message_actions cfg a
        have hstep : sys_step cfg q (Step.retry a) =
            (enqueue { q with pending := q.pending - 1 } q.app (send_message cfg a),
             send_message cfg a) := by
          simp [sys_step, hd, hp]
        rw [hstep]
        refine ⟨?_, fun act hact => (hsm act hact).2.2.2.1, fun _ h0 => absurd h0 hp,
          fun _ => Or.inr ⟨rfl, by omega⟩⟩
        simp only [enqueue, hper, Nat.zero_add]
        exact countP_eq_zero_of_all_false _ _ (fun act hact => (hsm act hact).2.2.2.1)
    | stack ev a =>
      have hev : ev ≠ lorawan_event_t.CONNECTED ∨ q.app.in_skt_join = true := by
        rcases hs with h | h
        · left; intro hc; subst hc; simp [is_connected_step] at h
        · right; exact h
      have h2 := handler_call_every cfg q.app ev a hev
      have hstep : sys_step cfg q (Step.stack ev a) =
          (enqueue q (lora_event_handler cfg q.app ev a).1 (lora_event_handler cfg q.app ev a).2,
           (lora_event_handler cfg q.app ev a).2) := by
        simp [sys_step, hd]
      rw [hstep]
      refine ⟨?_, h2, ?_, ?_⟩
      · simp only [enqueue, hper, Nat.zero_add]
        exact countP_eq_zero_of_all_false _ _ h2
      · intro hq hpend
        have hcond : cfg.MBED_CONF_LORA_DUTY_CYCLE_ON = false ∨
            ev ≠ lorawan_event_t.UPLINK_REQUIRED := by
          rcases hq with h | h
          · left; exact h
          · right; intro hc; subst hc; simp [is_uplink_step] at h
        have h1 := handler_no_telemetry cfg q.app ev a hcond
        refine ⟨?_, fun act hact => ⟨(h1 act hact).1, (h1 act hact).2.1⟩⟩
        simp only [enqueue, hpend, Nat.zero_add]
        exact countP_eq_zero_of_all_false _ _ (fun act hact => (h1 act hact).2.2)
      · rintro ⟨act, hact, hcall⟩
        left
        by_contra hcon
        have hcond : cfg.MBED_CONF_LORA_DUTY_CYCLE_ON = false ∨
            ev ≠ lorawan_event_t.UPLINK_REQUIRED := by
          by_cases hu : ev = lorawan_event_t.UPLINK_REQUIRED
          · left
            subst hu
            cases hdu : cfg.MBED_CONF_LORA_DUTY_CYCLE_ON with
            | false => rfl
            | true => exact absurd ⟨rfl, hdu⟩ hcon
          · right; exact hu
        have h1 := handler_no_telemetry cfg q.app ev a hcond act hact
        rw [h1.1] at hcall
        exact Bool.false_ne_true hcall

/-- How `before_provisioned` moves along one unit of work. -/
theorem before_provisioned_step (cfg : Config) (q : System) (s : Step)
    (rest : List Step) (h : before_provisioned q.app (s :: rest) = true) :
    before_provisioned (sys_step cfg q s).1.app rest = true ∧
    (is_connected_step s = false ∨ q.app.in_skt_join = true) := by
  by_cases hj : q.app.in_skt_join = true
  · have hp : provisioned (s :: rest) = false := by
      simpa [before_provisioned, hj] using h
    refine ⟨?_, Or.inr hj⟩
    rcases sys_step_app cfg q s with h' | ⟨ev, a, hs, h'⟩
    · rw [h']
      simpa [before_provisioned, hj] using provisioned_tail s rest hp
    · rw [h']
      by_cases hev : ev = lorawan_event_t.DISCONNECTED
      · subst hev
        subst hs
        have hflag := disconnected_clears_flag cfg q.app a
        have hrest : rest.any is_connected_step = false := by
          simpa [provisioned] using hp
        simp [before_provisioned, hflag, hrest]
      · have hflag := (handler_in_join cfg q.app ev a hj hev).1
        simpa [before_provisioned, hflag] using provisioned_tail s rest hp
  · have hj' : q.app.in_skt_join = false := by simpa using hj
    have hp : is_connected_step s = false ∧ rest.any is_connected_step = false := by
      simpa [before_provisioned, hj'] using h
    refine ⟨?_, Or.inl hp.1⟩
    have hflag : (sys_step cfg q s).1.app.in_skt_join = false := by
      rcases sys_step_app cfg q s with h' | ⟨ev, a, _, h'⟩
      · rw [h']; exact hj'
      · rw [h', (handler_after_join cfg q.app ev a hj').1]; exact hj'
    simp [before_provisioned, hflag, hp.2]

/-- A run that does not reach `Provisioned`: the repeating timer is never registered;
and if duty-cycle enforcement is disabled or no `UPLINK_REQUIRED` is in the run, no
one-shot timer is registered and `send_message` is never called. -/
theorem run_before_provisioned (cfg : Config) (pre : List Step) :
    ∀ (q : System) (rest : List Step), q.periodic = 0 →
      before_provisioned q.app (pre ++ rest) = true →
      (sys_run cfg q pre).1.periodic = 0 ∧
      before_provisioned (sys_run cfg q pre).1.app rest = true ∧
      (∀ act ∈ (sys_run cfg q pre).2, is_call_every act = false) ∧
      ((cfg.MBED_CONF_LORA_DUTY_CYCLE_ON = false ∨ pre.any is_uplink_step = false) →
        q.pending = 0 →
        (sys_run cfg q pre).1.pending = 0 ∧
        ∀ act ∈ (sys_run cfg q pre).2,
          is_send_message_call act = false ∧ is_unconfirmed_send act = false) := by
  induction pre with
  | nil =>
    intro q rest hper hb
    simp only [sys_run, List.nil_append] at *
    exact ⟨hper, hb, by simp, fun _ hp => ⟨hp, by simp⟩⟩
  | cons s pre ih =>
    intro q rest hper hb
    have hph := before_provisioned_step cfg q s (pre ++ rest) (by simpa using hb)
    have hst := sys_step_before cfg q s hper hph.2
    have hi := ih (sys_step cfg q s).1 rest hst.1 hph.1
    simp only [sys_run]
    refine ⟨hi.1, hi.2.1, ?_, ?_⟩
    · intro act hact
      rcases List.mem_append.1 hact with h | h
      · exact hst.2.1 act h
      · exact hi.2.2.1 act h
    · intro hq hpend
      have hq1 : cfg.MBED_CONF_LORA_DUTY_CYCLE_ON = false ∨ is_uplink_step s = false := by
        rcases hq with h | h
        · left; exact h
        · right
          simp only [List.any_cons, Bool.or_eq_false_iff] at h
          exact h.1
      have hq2 : cfg.MBED_CONF_LORA_DUTY_CYCLE_ON = false ∨
          pre.any is_uplink_step = false := by
        rcases hq with h | h
        · left; exact h
        · right
          simp only [List.any_cons, Bool.or_eq_false_iff] at h
          exact h.2
      have h1 := hst.2.2.1 hq1 hpend
      have h2 := hi.2.2.2 hq2 h1.1
      refine ⟨h2.1, fun act hact => ?_⟩
      rcases List.mem_append.1 hact with h | h
      · exact h1.2 act h
      · exact h2.2 act h

/-! ## Theorems -/

/-- C1: a `DISCONNECTED` event handled while `in_skt_join` is true makes exactly one
connect request, with the unchanged `deveui` and `appeui` and with, as `app_key`,
the whole output of `AES_ECB_encrypt` on the block
`[nonce0, nonce1, nonce2, netid0, netid1, netid2, 0 x 10]` under `pseudo_appkey`. -/
theorem C1_disconnected_connects_with_derived_key (cfg : Config) (st : State)
    (a : Answers) (n0 n1 n2 i0 i1 i2 : Nat)
    (hjoin : st.in_skt_join = true) (hnonce : st.skt_nonce = [n0, n1, n2])
    (hnet : st.netid = [i0, i1, i2]) :
    lora_event_handler cfg st lorawan_event_t.DISCONNECTED a =
      ({ st with
          in_skt_join := false,
          real_app_key_output :=
            cfg.AES_ECB_encrypt [n0, n1, n2, i0, i1, i2, 0, 0, 0, 0, 0, 0, 0, 0, 0, 0]
              st.pseudo_appkey 16 },
       [Action.AES_ECB_encrypt [n0, n1, n2, i0, i1, i2, 0, 0, 0, 0, 0, 0, 0, 0, 0, 0]
          st.pseudo_appkey 16,
        Action.connect st.deveui st.appeui
          (cfg.AES_ECB_encrypt [n0, n1, n2, i0, i1, i2, 0, 0, 0, 0, 0, 0, 0, 0, 0, 0]
            st.pseudo_appkey 16)]) ∧
    (lora_event_handler cfg st lorawan_event_t.DISCONNECTED a).2.countP is_connect = 1 := by
  simp [lora_event_handler, hjoin, aes_input, hnonce, hnet, at_index, is_connect]

theorem C1_witness :
    lora_event_handler config_duty_on State.initial lorawan_event_t.DISCONNECTED quiet =
      ({ State.initial with
          in_skt_join := false,
          real_app_key_output :=
            config_duty_on.AES_ECB_encrypt
              [0, 0, 0, 0xd, 0, 0, 0, 0, 0, 0, 0, 0, 0, 0, 0, 0]
              State.initial.pseudo_appkey 16 },
       [Action.AES_ECB_encrypt [0, 0, 0, 0xd, 0, 0, 0, 0, 0, 0, 0, 0, 0, 0, 0, 0]
          State.initial.pseudo_appkey 16,
        Action.connect State.initial.deveui State.initial.appeui
          (config_duty_on.AES_ECB_encrypt
            [0, 0, 0, 0xd, 0, 0, 0, 0, 0, 0, 0, 0, 0, 0, 0, 0]
            State.initial.pseudo_appkey 16)]) ∧
    (lora_event_handler config_duty_on State.initial
      lorawan_event_t.DISCONNECTED quiet).2.countP is_connect = 1 :=
  C1_disconnected_connects_with_derived_key config_duty_on State.initial quiet
    0 0 0 0xd 0 0 rfl rfl rfl

/-- C2: a 6-byte frame with message type `ALLOC_ANS` and payload length 3, received
while `in_skt_join` is true, stores bytes 3..5 as the nonce and makes one confirmed
send of `[0x00, 0x02, 0x00]` on port 223. -/
theorem C2_alloc_ans_sets_nonce_and_reports (cfg : Config) (st : State) (a : Answers)
    (v n0 n1 n2 : Nat) (hjoin : st.in_skt_join = true) :
    lora_event_handler cfg st lorawan_event_t.RX_DONE
        (rx_frame a [v, 0x1, 0x3, n0, n1, n2]) =
      ({ st with skt_nonce := [n0, n1, n2] },
       [Action.receive 223 255
          [msg_flag.MSG_CONFIRMED_FLAG, msg_flag.MSG_UNCONFIRMED_FLAG],
        Action.send 223 [0x00, 0x02, 0x00] [msg_flag.MSG_CONFIRMED_FLAG]]) ∧
    (lora_event_handler cfg st lorawan_event_t.RX_DONE
        (rx_frame a [v, 0x1, 0x3, n0, n1, n2])).2.countP is_send = 1 := by
  simp [lora_event_handler, hjoin, rx_frame, overwrite, to_uint16, at_index,
    APP_KEY_ALLOC_ANS, APP_KEY_REPORT_REQ, SKT_JOIN_VERSION, is_send]

theorem C2_witness :
    lora_event_handler config_duty_on State.initial lorawan_event_t.RX_DONE
        (rx_frame quiet [0x00, 0x1, 0x3, 0xAA, 0xBB, 0xCC]) =
      ({ State.initial with skt_nonce := [0xAA, 0xBB, 0xCC] },
       [Action.receive 223 255
          [msg_flag.MSG_CONFIRMED_FLAG, msg_flag.MSG_UNCONFIRMED_FLAG],
        Action.send 223 [0x00, 0x02, 0x00] [msg_flag.MSG_CONFIRMED_FLAG]]) ∧
    (lora_event_handler config_duty_on State.initial lorawan_event_t.RX_DONE
        (rx_frame quiet [0x00, 0x1, 0x3, 0xAA, 0xBB, 0xCC])).2.countP is_send = 1 :=
  C2_alloc_ans_sets_nonce_and_reports config_duty_on State.initial quiet
    0x00 0xAA 0xBB 0xCC rfl

/-- C3: a `CONNECTED` event handled while `in_skt_join` is true makes exactly one
call, the confirmed send of `[0x00, 0x00, 0x00]` on port 223, and leaves the globals
unchanged. -/
theorem C3_connected_sends_alloc_req (cfg : Config) (st : State) (a : Answers)
    (hjoin : st.in_skt_join = true) :
    lora_event_handler cfg st lorawan_event_t.CONNECTED a =
      (st, [Action.send 223 [0x00, 0x00, 0x00] [msg_flag.MSG_CONFIRMED_FLAG]]) := by
  simp [lora_event_handler, hjoin, APP_KEY_ALLOC_REQ, SKT_JOIN_VERSION]

theorem C3_witness :
    lora_event_handler config_duty_on State.initial lorawan_event_t.CONNECTED quiet =
      (State.initial,
       [Action.send 223 [0x00, 0x00, 0x00] [msg_flag.MSG_CONFIRMED_FLAG]]) :=
  C3_connected_sends_alloc_req config_duty_on State.initial quiet rfl

/-- C4 (as stated, refuted): the 2-byte frame `[0x00, 0x03]` received during the
handshake is dropped by the guard `retcode < 3`; no disconnect request is made. -/
theorem C4_counterexample :
    lora_event_handler config_duty_on State.initial lorawan_event_t.RX_DONE
        (rx_frame quiet [0x00, 0x03]) =
      (State.initial,
       [Action.receive 223 255
          [msg_flag.MSG_CONFIRMED_FLAG, msg_flag.MSG_UNCONFIRMED_FLAG]]) ∧
    Action.disconnect ∉
      (lora_event_handler config_duty_on State.initial lorawan_event_t.RX_DONE
        (rx_frame quiet [0x00, 0x03])).2 := by
  decide

/-- C4 (amended): every frame of at least 3 bytes (and at most the 255 bytes of the
buffer) received during the handshake whose message type byte is `REPORT_ANS`
makes the handler issue a disconnect request, whatever its length and its other
bytes; the globals are unchanged. -/
theorem C4_report_ans_disconnects (cfg : Config) (st : State) (a : Answers)
    (frame : List Nat) (hjoin : st.in_skt_join = true)
    (hmin : 3 ≤ frame.length) (hmax : frame.length ≤ 255)
    (htype : at_index frame 1 = 0x3) :
    lora_event_handler cfg st lorawan_event_t.RX_DONE (rx_frame a frame) =
      (st,
       [Action.receive 223 255
          [msg_flag.MSG_CONFIRMED_FLAG, msg_flag.MSG_UNCONFIRMED_FLAG],
        Action.disconnect]) := by
  have h1 : at_index (overwrite a.rx_stale frame) 1 = 3 := by
    rw [at_index_overwrite _ _ _ (by omega)]; exact htype
  have hlen : to_uint16 (frame.length : Int) = frame.length :=
    to_uint16_of_length _ hmax
  have hge : ¬ frame.length < 3 := by omega
  simp [lora_event_handler, hjoin, rx_frame, hlen, h1, hge, APP_KEY_ALLOC_ANS,
    APP_KEY_REPORT_ANS]

theorem C4_witness :
    lora_event_handler config_duty_on State.initial lorawan_event_t.RX_DONE
        (rx_frame quiet [0x00, 0x03, 0x00]) =
      (State.initial,
       [Action.receive 223 255
          [msg_flag.MSG_CONFIRMED_FLAG, msg_flag.MSG_UNCONFIRMED_FLAG],
        Action.disconnect]) :=
  C4_report_ans_disconnects config_duty_on State.initial quiet [0x00, 0x03, 0x00]
    rfl (by decide) (by decide) rfl

/-- C5 (as stated, refuted): from the initial state a single `DISCONNECTED` event,
with no `ALLOC_ANS` and no `REPORT_ANS` handled before, makes the handler derive a
key from the all-zero nonce, issue the connect request and end the handshake. -/
theorem C5_counterexample :
    run_events config_duty_on State.initial
        [(lorawan_event_t.DISCONNECTED, quiet)] =
      ({ State.initial with
          in_skt_join := false,
          real_app_key_output := [0, 0, 0, 0xd, 0, 0, 0, 0, 0, 0, 0, 0, 0, 0, 0, 6] },
       [Action.AES_ECB_encrypt [0, 0, 0, 0xd, 0, 0, 0, 0, 0, 0, 0, 0, 0, 0, 0, 0]
          [0, 0, 0, 0, 0, 0, 0, 0, 0, 0, 0, 0, 0, 0, 0, 6] 16,
        Action.connect [0x00, 0x80, 0x00, 0x00, 0x04, 0x00, 0x37, 0xD1]
          [0x00, 0x00, 0x00, 0x00, 0x00, 0x00, 0x00, 0x0A]
          (config_duty_on.AES_ECB_encrypt
            [0, 0, 0, 0xd, 0, 0, 0, 0, 0, 0, 0, 0, 0, 0, 0, 0]
            [0, 0, 0, 0, 0, 0, 0, 0, 0, 0, 0, 0, 0, 0, 0, 6] 16)]) := by
  decide

/-- C5 (amended): for every sequence of events fed to the handler from a state with
`in_skt_join` true, a connect request is issued if and only if the sequence
contains a `DISCONNECTED` event, whether or not `ALLOC_ANS` and `REPORT_ANS` frames
were handled; it is issued at the first `DISCONNECTED`, once, with the key derived
from the nonce stored at that moment (all zero when no `ALLOC_ANS` was handled). -/
theorem C5_reconnect_iff_disconnected (cfg : Config) (st : State)
    (evs : List (lorawan_event_t × Answers)) (hjoin : st.in_skt_join = true) :
    ((run_events cfg st evs).2.any is_connect =
      evs.any (fun e => decide (e.1 = lorawan_event_t.DISCONNECTED))) ∧
    ∀ (pre post : List (lorawan_event_t × Answers)) (a : Answers),
      evs = pre ++ (lorawan_event_t.DISCONNECTED, a) :: post →
      (∀ e ∈ pre, e.1 ≠ lorawan_event_t.DISCONNECTED) →
      (run_events cfg st evs).2.filter is_connect =
        [Action.connect st.deveui st.appeui
          (cfg.AES_ECB_encrypt
            [at_index (run_events cfg st pre).1.skt_nonce 0,
             at_index (run_events cfg st pre).1.skt_nonce 1,
             at_index (run_events cfg st pre).1.skt_nonce 2,
             at_index st.netid 0, at_index st.netid 1, at_index st.netid 2,
             0, 0, 0, 0, 0, 0, 0, 0, 0, 0]
            st.pseudo_appkey 16)] := by
  constructor
  · induction evs generalizing st with
    | nil => simp [run_events]
    | cons x xs ih =>
      obtain ⟨ev, a⟩ := x
      by_cases hev : ev = lorawan_event_t.DISCONNECTED
      · subst hev
        simp [run_events, handler_disconnected_in_join cfg st a hjoin, is_connect]
      · have hh := handler_in_join cfg st ev a hjoin hev
        have h0 : (lora_event_handler cfg st ev a).2.any is_connect = false := by
          rw [List.any_eq_false]
          intro act hact
          simp [(hh.2.2.2.2.2 act hact).1]
        simp only [run_events, List.any_append, h0, Bool.false_or, List.any_cons, hev,
          decide_False]
        exact ih _ hh.1
  · intro pre post a hsplit hno
    subst hsplit
    have hp := run_in_join cfg st pre hjoin hno
    have hd := handler_disconnected_in_join cfg (run_events cfg st pre).1 a hp.1
    have hpost := run_after_join cfg
      (lora_event_handler cfg (run_events cfg st pre).1 lorawan_event_t.DISCONNECTED a).1
      post (disconnected_clears_flag cfg _ a)
    rw [run_events_append]
    simp only [run_events, List.filter_append]
    rw [filter_eq_nil_of_all_false is_connect _ (fun act hact => (hp.2.2.2.2.2 act hact).1),
      filter_eq_nil_of_all_false is_connect (run_events cfg _ post).2
        (fun act hact => (hpost.2 act hact).1)]
    rw [hd]
    simp [is_connect, aes_input, hp.2.1, hp.2.2.1, hp.2.2.2.1, hp.2.2.2.2.1]

theorem C5_witness :
    ((run_events config_duty_on State.initial
        [(lorawan_event_t.CONNECTED, quiet),
         (lorawan_event_t.DISCONNECTED, quiet)]).2.any is_connect =
      [(lorawan_event_t.CONNECTED, quiet),
       (lorawan_event_t.DISCONNECTED, quiet)].any
        (fun e => decide (e.1 = lorawan_event_t.DISCONNECTED))) ∧
    (run_events config_duty_on State.initial
        [(lorawan_event_t.CONNECTED, quiet),
         (lorawan_event_t.DISCONNECTED, quiet)]).2.filter is_connect =
      [Action.connect State.initial.deveui State.initial.appeui
        (config_duty_on.AES_ECB_encrypt
          [at_index (run_events config_duty_on State.initial
              [(lorawan_event_t.CONNECTED, quiet)]).1.skt_nonce 0,
           at_index (run_events config_duty_on State.initial
              [(lorawan_event_t.CONNECTED, quiet)]).1.skt_nonce 1,
           at_index (run_events config_duty_on State.initial
              [(lorawan_event_t.CONNECTED, quiet)]).1.skt_nonce 2,
           at_index State.initial.netid 0, at_index State.initial.netid 1,
           at_index State.initial.netid 2,
           0, 0, 0, 0, 0, 0, 0, 0, 0, 0]
          State.initial.pseudo_appkey 16)] :=
  ⟨(C5_reconnect_iff_disconnected config_duty_on State.initial
      [(lorawan_event_t.CONNECTED, quiet), (lorawan_event_t.DISCONNECTED, quiet)] rfl).1,
   (C5_reconnect_iff_disconnected config_duty_on State.initial
      [(lorawan_event_t.CONNECTED, quiet), (lorawan_event_t.DISCONNECTED, quiet)] rfl).2
      [(lorawan_event_t.CONNECTED, quiet)] [] quiet rfl (by decide)⟩

/-- C6 (as stated, refuted): after a valid `ALLOC_ANS` set the nonce to
`[0xAA, 0xBB, 0xCC]`, a second valid `ALLOC_ANS` replaces it by `[0x11, 0x22, 0x33]`
and sends a second `REPORT_REQ`, and a later `CONNECTED` sends a second `ALLOC_REQ`. -/
theorem C6_counterexample :
    run_events config_duty_on State.initial
        [(lorawan_event_t.CONNECTED, quiet),
         (lorawan_event_t.RX_DONE, rx_frame quiet [0x00, 0x01, 0x03, 0xAA, 0xBB, 0xCC]),
         (lorawan_event_t.RX_DONE, rx_frame quiet [0x00, 0x01, 0x03, 0x11, 0x22, 0x33]),
         (lorawan_event_t.CONNECTED, quiet)] =
      ({ State.initial with skt_nonce := [0x11, 0x22, 0x33] },
       [Action.send 223 [0x00, 0x00, 0x00] [msg_flag.MSG_CONFIRMED_FLAG],
        Action.receive 223 255
          [msg_flag.MSG_CONFIRMED_FLAG, msg_flag.MSG_UNCONFIRMED_FLAG],
        Action.send 223 [0x00, 0x02, 0x00] [msg_flag.MSG_CONFIRMED_FLAG],
        Action.receive 223 255
          [msg_flag.MSG_CONFIRMED_FLAG, msg_flag.MSG_UNCONFIRMED_FLAG],
        Action.send 223 [0x00, 0x02, 0x00] [msg_flag.MSG_CONFIRMED_FLAG],
        Action.send 223 [0x00, 0x00, 0x00] [msg_flag.MSG_CONFIRMED_FLAG]]) := by
  decide

/-- C6 (amended): while `in_skt_join` is true every `CONNECTED` event sends an
`ALLOC_REQ` and every valid `ALLOC_ANS` frame stores its payload as the nonce and
sends a `REPORT_REQ`, whatever nonce was stored before; once a `DISCONNECTED` event
has been handled, no later event makes a confirmed send (so no `ALLOC_REQ` and no
`REPORT_REQ`) and none changes the stored nonce. -/
theorem C6_progress_frozen_after_disconnect (cfg : Config) (st : State)
    (a b c : Answers) (v n0 n1 n2 : Nat)
    (evs : List (lorawan_event_t × Answers)) (hjoin : st.in_skt_join = true) :
    lora_event_handler cfg st lorawan_event_t.CONNECTED a =
      (st, [Action.send 223 [0x00, 0x00, 0x00] [msg_flag.MSG_CONFIRMED_FLAG]]) ∧
    lora_event_handler cfg st lorawan_event_t.RX_DONE
        (rx_frame b [v, 0x1, 0x3, n0, n1, n2]) =
      ({ st with skt_nonce := [n0, n1, n2] },
       [Action.receive 223 255
          [msg_flag.MSG_CONFIRMED_FLAG, msg_flag.MSG_UNCONFIRMED_FLAG],
        Action.send 223 [0x00, 0x02, 0x00] [msg_flag.MSG_CONFIRMED_FLAG]]) ∧
    (run_events cfg
        (lora_event_handler cfg st lorawan_event_t.DISCONNECTED c).1 evs).1.skt_nonce =
      st.skt_nonce ∧
    (run_events cfg
        (lora_event_handler cfg st lorawan_event_t.DISCONNECTED c).1 evs).2.countP
      is_confirmed_send = 0 := by
  have hflag := disconnected_clears_flag cfg st c
  have hrun := run_after_join cfg _ evs hflag
  refine ⟨?_, ?_, ?_, ?_⟩
  · simp [lora_event_handler, hjoin, APP_KEY_ALLOC_REQ, SKT_JOIN_VERSION]
  · simp [lora_event_handler, hjoin, rx_frame, overwrite, to_uint16, at_index,
      APP_KEY_ALLOC_ANS, APP_KEY_REPORT_REQ, SKT_JOIN_VERSION]
  · rw [hrun.1, handler_disconnected_in_join cfg st c hjoin]
  · exact countP_eq_zero_of_all_false _ _ (fun act hact => (hrun.2 act hact).2.2.1)

theorem C6_witness :
    lora_event_handler config_duty_on
        { State.initial with skt_nonce := [0xAA, 0xBB, 0xCC] }
        lorawan_event_t.CONNECTED quiet =
      ({ State.initial with skt_nonce := [0xAA, 0xBB, 0xCC] },
       [Action.send 223 [0x00, 0x00, 0x00] [msg_flag.MSG_CONFIRMED_FLAG]]) ∧
    lora_event_handler config_duty_on
        { State.initial with skt_nonce := [0xAA, 0xBB, 0xCC] }
        lorawan_event_t.RX_DONE (rx_frame quiet [0x00, 0x1, 0x3, 0x11, 0x22, 0x33]) =
      ({ { State.initial with skt_nonce := [0xAA, 0xBB, 0xCC] } with
          skt_nonce := [0x11, 0x22, 0x33] },
       [Action.receive 223 255
          [msg_flag.MSG_CONFIRMED_FLAG, msg_flag.MSG_UNCONFIRMED_FLAG],
        Action.send 223 [0x00, 0x02, 0x00] [msg_flag.MSG_CONFIRMED_FLAG]]) ∧
    (run_events config_duty_on
        (lora_event_handler config_duty_on
          { State.initial with skt_nonce := [0xAA, 0xBB, 0xCC] }
          lorawan_event_t.DISCONNECTED quiet).1
        [(lorawan_event_t.CONNECTED, quiet),
         (lorawan_event_t.RX_DONE,
           rx_frame quiet [0x00, 0x1, 0x3, 0x11, 0x22, 0x33])]).1.skt_nonce =
      [0xAA, 0xBB, 0xCC] ∧
    (run_events config_duty_on
        (lora_event_handler config_duty_on
          { State.initial with skt_nonce := [0xAA, 0xBB, 0xCC] }
          lorawan_event_t.DISCONNECTED quiet).1
        [(lorawan_event_t.CONNECTED, quiet),
         (lorawan_event_t.RX_DONE,
           rx_frame quiet [0x00, 0x1, 0x3, 0x11, 0x22, 0x33])]).2.countP
      is_confirmed_send = 0 :=
  C6_progress_frozen_after_disconnect config_duty_on
    { State.initial with skt_nonce := [0xAA, 0xBB, 0xCC] } quiet quiet quiet
    0x00 0x11 0x22 0x33
    [(lorawan_event_t.CONNECTED, quiet),
     (lorawan_event_t.RX_DONE, rx_frame quiet [0x00, 0x1, 0x3, 0x11, 0x22, 0x33])] rfl

/-- C7: for every sequence of events fed to the handler, from any state, at most one
connect request is issued and at most one key derivation is made; after a
`DISCONNECTED` event has been handled no later event triggers a connect request or
a key derivation. `main` makes its connect request whenever the three earlier
start-up calls succeed, with `pseudo_appkey`, and before it enters the dispatch
loop. The handler's connect request exists exactly when the run starts with
`in_skt_join` true and contains a `DISCONNECTED`; it carries the output of the one
key derivation, made on the block built from the nonce stored at the first
`DISCONNECTED` and from `netid`, under `pseudo_appkey`. -/
theorem C7_at_most_one_reconnect (cfg : Config) (st : State)
    (evs : List (lorawan_event_t × Answers)) (a : Answers)
    (r_init r_retries r_adr r_connect : Int) :
    (run_events cfg st evs).2.countP is_connect ≤ 1 ∧
    (run_events cfg st evs).2.countP is_derivation ≤ 1 ∧
    (run_events cfg
        (lora_event_handler cfg st lorawan_event_t.DISCONNECTED a).1 evs).2.countP
      is_connect = 0 ∧
    (run_events cfg
        (lora_event_handler cfg st lorawan_event_t.DISCONNECTED a).1 evs).2.countP
      is_derivation = 0 ∧
    (main cfg st r_init r_retries r_adr r_connect).2.filter is_connect =
      (if r_init = cfg.LORAWAN_STATUS_OK ∧ r_retries = cfg.LORAWAN_STATUS_OK ∧
          r_adr = cfg.LORAWAN_STATUS_OK then
        [Action.connect st.deveui st.appeui st.pseudo_appkey]
      else []) ∧
    (main cfg st r_init r_retries r_adr r_connect).2.filter
        (fun x => is_connect x || decide (x = Action.dispatch_forever)) =
      (if r_init = cfg.LORAWAN_STATUS_OK ∧ r_retries = cfg.LORAWAN_STATUS_OK ∧
          r_adr = cfg.LORAWAN_STATUS_OK then
        (if r_connect = cfg.LORAWAN_STATUS_OK ∨
            r_connect = cfg.LORAWAN_STATUS_CONNECT_IN_PROGRESS then
          [Action.connect st.deveui st.appeui st.pseudo_appkey, Action.dispatch_forever]
        else [Action.connect st.deveui st.appeui st.pseudo_appkey])
      else []) ∧
    (run_events cfg st evs).2.filter is_connect =
      (if st.in_skt_join = true ∧
          evs.any (fun e => decide (e.1 = lorawan_event_t.DISCONNECTED)) = true then
        [Action.connect st.deveui st.appeui
          (cfg.AES_ECB_encrypt
            [at_index (run_events cfg st (before_first_disconnected evs)).1.skt_nonce 0,
             at_index (run_events cfg st (before_first_disconnected evs)).1.skt_nonce 1,
             at_index (run_events cfg st (before_first_disconnected evs)).1.skt_nonce 2,
             at_index st.netid 0, at_index st.netid 1, at_index st.netid 2,
             0, 0, 0, 0, 0, 0, 0, 0, 0, 0]
            st.pseudo_appkey 16)]
      else []) ∧
    (run_events cfg st evs).2.filter is_derivation =
      (if st.in_skt_join = true ∧
          evs.any (fun e => decide (e.1 = lorawan_event_t.DISCONNECTED)) = true then
        [Action.AES_ECB_encrypt
          [at_index (run_events cfg st (before_first_disconnected evs)).1.skt_nonce 0,
           at_index (run_events cfg st (before_first_disconnected evs)).1.skt_nonce 1,
           at_index (run_events cfg st (before_first_disconnected evs)).1.skt_nonce 2,
           at_index st.netid 0, at_index st.netid 1, at_index st.netid 2,
           0, 0, 0, 0, 0, 0, 0, 0, 0, 0]
          st.pseudo_appkey 16]
      else []) := by
  have hafter : ∀ (s : State) (l : List (lorawan_event_t × Answers)),
      s.in_skt_join = false →
      (run_events cfg s l).2.countP is_connect = 0 ∧
      (run_events cfg s l).2.countP is_derivation = 0 := by
    intro s l hs
    have hrun := run_after_join cfg s l hs
    exact ⟨countP_eq_zero_of_all_false _ _ (fun act hact => (hrun.2 act hact).1),
      countP_eq_zero_of_all_false _ _ (fun act hact => (hrun.2 act hact).2.1)⟩
  have hbound : ∀ (l : List (lorawan_event_t × Answers)) (s : State),
      (run_events cfg s l).2.countP is_connect ≤ 1 ∧
      (run_events cfg s l).2.countP is_derivation ≤ 1 := by
    intro l
    induction l with
    | nil => intro s; simp [run_events]
    | cons x xs ih =>
      intro s
      obtain ⟨ev, b⟩ := x
      cases hs : s.in_skt_join with
      | false =>
        have := hafter s ((ev, b) :: xs) hs
        omega
      | true =>
        by_cases hev : ev = lorawan_event_t.DISCONNECTED
        · subst hev
          have hrest := hafter (lora_event_handler cfg s lorawan_event_t.DISCONNECTED b).1
            xs (disconnected_clears_flag cfg s b)
          simp only [run_events, List.countP_append, hrest.1, hrest.2]
          rw [handler_disconnected_in_join cfg s b hs]
          simp [is_connect, is_derivation, List.countP_cons]
        · have hh := handler_in_join cfg s ev b hs hev
          have h1 := countP_eq_zero_of_all_false is_connect _
            (fun act hact => (hh.2.2.2.2.2 act hact).1)
          have h2 := countP_eq_zero_of_all_false is_derivation _
            (fun act hact => (hh.2.2.2.2.2 act hact).2)
          simp only [run_events, List.countP_append, h1, h2, Nat.zero_add]
          exact ih _
  have hmain : ∀ (p : Action → Bool), p Action.setup_trace = false →
      p Action.stack_init = false → p Action.add_app_callbacks = false →
      p (Action.set_confirmed_msg_retries CONFIRMED_MSG_RETRY_COUNTER) = false →
      p Action.enable_adaptive_datarate = false →
      p (Action.connect st.deveui st.appeui st.pseudo_appkey) = true →
      (main cfg st r_init r_retries r_adr r_connect).2.filter p =
        (if r_init = cfg.LORAWAN_STATUS_OK ∧ r_retries = cfg.LORAWAN_STATUS_OK ∧
            r_adr = cfg.LORAWAN_STATUS_OK then
          (if r_connect = cfg.LORAWAN_STATUS_OK ∨
              r_connect = cfg.LORAWAN_STATUS_CONNECT_IN_PROGRESS then
            Action.connect st.deveui st.appeui st.pseudo_appkey ::
              [Action.dispatch_forever].filter p
          else [Action.connect st.deveui st.appeui st.pseudo_appkey])
        else []) := by
    intro p p1 p2 p3 p4 p5 p6
    by_cases h1 : r_init = cfg.LORAWAN_STATUS_OK
    · by_cases h2 : r_retries = cfg.LORAWAN_STATUS_OK
      · by_cases h3 : r_adr = cfg.LORAWAN_STATUS_OK
        · by_cases h4 : r_connect = cfg.LORAWAN_STATUS_OK ∨
              r_connect = cfg.LORAWAN_STATUS_CONNECT_IN_PROGRESS
          · simp [main, h1, h2, h3, h4, List.filter_cons, p1, p2, p3, p4, p5, p6]
          · simp [main, h1, h2, h3, h4, List.filter_cons, p1, p2, p3, p4, p5, p6]
        · simp [main, h1, h2, h3, List.filter_cons, p1, p2, p3, p4, p5]
      · simp [main, h1, h2, List.filter_cons, p1, p2, p3, p4]
    · simp [main, h1, List.filter_cons, p1, p2]
  refine ⟨(hbound evs st).1, (hbound evs st).2, ?_, ?_, ?_, ?_, ?_, ?_⟩
  · exact (hafter _ evs (disconnected_clears_flag cfg st a)).1
  · exact (hafter _ evs (disconnected_clears_flag cfg st a)).2
  · rw [hmain is_connect rfl rfl rfl rfl rfl rfl]
    by_cases h : r_init = cfg.LORAWAN_STATUS_OK ∧ r_retries = cfg.LORAWAN_STATUS_OK ∧
        r_adr = cfg.LORAWAN_STATUS_OK
    · by_cases h4 : r_connect = cfg.LORAWAN_STATUS_OK ∨
          r_connect = cfg.LORAWAN_STATUS_CONNECT_IN_PROGRESS <;>
        simp [h, h4, is_connect]
    · simp [h]
  · rw [hmain _ rfl rfl rfl rfl rfl rfl]
    by_cases h : r_init = cfg.LORAWAN_STATUS_OK ∧ r_retries = cfg.LORAWAN_STATUS_OK ∧
        r_adr = cfg.LORAWAN_STATUS_OK
    · by_cases h4 : r_connect = cfg.LORAWAN_STATUS_OK ∨
          r_connect = cfg.LORAWAN_STATUS_CONNECT_IN_PROGRESS <;>
        simp [h, h4, is_connect]
    · simp [h]
  · by_cases hs : st.in_skt_join = true
    · have := (reconnect_of_run cfg evs st hs).1
      simp only [aes_input] at this
      by_cases hany : evs.any (fun e => decide (e.1 = lorawan_event_t.DISCONNECTED)) = true
      · rw [if_pos ⟨hs, hany⟩, this, if_pos hany]
      · rw [if_neg (fun h => hany h.2), this, if_neg hany]
    · rw [if_neg (fun h => hs h.1)]
      have hrun := run_after_join cfg st evs (by simpa using hs)
      exact filter_eq_nil_of_all_false is_connect _ (fun act hact => (hrun.2 act hact).1)
  · by_cases hs : st.in_skt_join = true
    · have := (reconnect_of_run cfg evs st hs).2
      simp only [aes_input] at this
      by_cases hany : evs.any (fun e => decide (e.1 = lorawan_event_t.DISCONNECTED)) = true
      · rw [if_pos ⟨hs, hany⟩, this, if_pos hany]
      · rw [if_neg (fun h => hany h.2), this, if_neg hany]
    · rw [if_neg (fun h => hs h.1)]
      have hrun := run_after_join cfg st evs (by simpa using hs)
      exact filter_eq_nil_of_all_false is_derivation _
        (fun act hact => (hrun.2 act hact).2.1)

/-- C8 (as stated, refuted): with duty-cycle enforcement enabled, an
`UPLINK_REQUIRED` event handled in the initial state, before any `CONNECTED` or
`DISCONNECTED` event, calls `send_message`, which sends on the application port. -/
theorem C8_counterexample :
    provisioned [Step.stack lorawan_event_t.UPLINK_REQUIRED quiet] = false ∧
    (sys_run config_duty_on System.initial
        [Step.stack lorawan_event_t.UPLINK_REQUIRED quiet]).2 =
      [Action.ds1820_begin, Action.ds1820_startConversion, Action.ds1820_read,
       Action.ds1820_startConversion,
       Action.send 15 [0x44, 0x75, 0x6d, 0x6d, 0x79] [msg_flag.MSG_UNCONFIRMED_FLAG]] := by
  decide

/-- C8 (amended): for every sequence of stack events and timer firings from program
start and every value of the duty-cycle flag, as long as `Provisioned` is not
reached (no `CONNECTED` event after the first `DISCONNECTED` event) the repeating
timer is not registered, and `send_message` is called only with duty-cycle
enforcement enabled, in the handling of an `UPLINK_REQUIRED` event or in the firing
of a one-shot retry; when duty-cycle enforcement is disabled, or when no
`UPLINK_REQUIRED` event is delivered, there is no call of `send_message` and no
unconfirmed send. -/
theorem C8_no_telemetry_before_provisioned (cfg : Config) (steps : List Step)
    (hnot : provisioned steps = false) :
    (sys_run cfg System.initial steps).2.countP is_call_every = 0 ∧
    ((cfg.MBED_CONF_LORA_DUTY_CYCLE_ON = false ∨ steps.any is_uplink_step = false) →
      (sys_run cfg System.initial steps).2.countP is_send_message_call = 0 ∧
      (sys_run cfg System.initial steps).2.countP is_unconfirmed_send = 0) ∧
    (∀ (pre : List Step) (s : Step) (post : List Step), steps = pre ++ s :: post →
      (∃ act ∈ (sys_step cfg (sys_run cfg System.initial pre).1 s).2,
        is_send_message_call act = true) →
      cfg.MBED_CONF_LORA_DUTY_CYCLE_ON = true ∧
      (is_uplink_step s = true ∨ is_retry_step s = true)) := by
  have hstart : ∀ l : List Step, provisioned l = false →
      before_provisioned System.initial.app l = true := by
    intro l hl
    simp [before_provisioned, System.initial, State.initial, hl]
  have hall := run_before_provisioned cfg steps System.initial [] rfl
    (by simpa using hstart steps hnot)
  refine ⟨countP_eq_zero_of_all_false _ _ hall.2.2.1, ?_, ?_⟩
  · intro hq
    have h := hall.2.2.2 hq rfl
    exact ⟨countP_eq_zero_of_all_false _ _ (fun act hact => (h.2 act hact).1),
      countP_eq_zero_of_all_false _ _ (fun act hact => (h.2 act hact).2)⟩
  · intro pre s post hsplit hcall
    subst hsplit
    have hpre := run_before_provisioned cfg pre System.initial (s :: post) rfl
      (hstart _ hnot)
    have hph := before_provisioned_step cfg (sys_run cfg System.initial pre).1 s post
      hpre.2.1
    have hst := sys_step_before cfg (sys_run cfg System.initial pre).1 s hpre.1 hph.2
    rcases hst.2.2.2 hcall with ⟨hu, hd⟩ | ⟨hr, hpos⟩
    · exact ⟨hd, Or.inl hu⟩
    · refine ⟨?_, Or.inr hr⟩
      cases hdu : cfg.MBED_CONF_LORA_DUTY_CYCLE_ON with
      | true => rfl
      | false =>
        have h0 := (hpre.2.2.2 (Or.inl hdu) rfl).1
        omega

theorem C8_witness :
    (sys_run config_duty_on System.initial
        [Step.stack lorawan_event_t.CONNECTED quiet,
         Step.timer quiet,
         Step.stack lorawan_event_t.RX_DONE
           (rx_frame quiet [0x00, 0x01, 0x03, 0xAA, 0xBB, 0xCC]),
         Step.stack lorawan_event_t.DISCONNECTED quiet,
         Step.retry quiet]).2.countP is_call_every = 0 ∧
    ((sys_run config_duty_on System.initial
        [Step.stack lorawan_event_t.CONNECTED quiet,
         Step.timer quiet,
         Step.stack lorawan_event_t.RX_DONE
           (rx_frame quiet [0x00, 0x01, 0x03, 0xAA, 0xBB, 0xCC]),
         Step.stack lorawan_event_t.DISCONNECTED quiet,
         Step.retry quiet]).2.countP is_send_message_call = 0 ∧
     (sys_run config_duty_on System.initial
        [Step.stack lorawan_event_t.CONNECTED quiet,
         Step.timer quiet,
         Step.stack lorawan_event_t.RX_DONE
           (rx_frame quiet [0x00, 0x01, 0x03, 0xAA, 0xBB, 0xCC]),
         Step.stack lorawan_event_t.DISCONNECTED quiet,
         Step.retry quiet]).2.countP is_unconfirmed_send = 0) ∧
    ((sys_run config_duty_off System.initial
        [Step.stack lorawan_event_t.CONNECTED quiet,
         Step.stack lorawan_event_t.UPLINK_REQUIRED quiet,
         Step.timer quiet,
         Step.stack lorawan_event_t.DISCONNECTED quiet,
         Step.stack lorawan_event_t.UPLINK_REQUIRED quiet]).2.countP
        is_send_message_call = 0 ∧
     (sys_run config_duty_off System.initial
        [Step.stack lorawan_event_t.CONNECTED quiet,
         Step.stack lorawan_event_t.UPLINK_REQUIRED quiet,
         Step.timer quiet,
         Step.stack lorawan_event_t.DISCONNECTED quiet,
         Step.stack lorawan_event_t.UPLINK_REQUIRED quiet]).2.countP
        is_unconfirmed_send = 0) ∧
    (config_duty_on.MBED_CONF_LORA_DUTY_CYCLE_ON = true ∧
     (is_uplink_step (Step.stack lorawan_event_t.UPLINK_REQUIRED quiet) = true ∨
      is_retry_step (Step.stack lorawan_event_t.UPLINK_REQUIRED quiet) = true)) :=
  ⟨(C8_no_telemetry_before_provisioned config_duty_on
      [Step.stack lorawan_event_t.CONNECTED quiet,
       Step.timer quiet,
       Step.stack lorawan_event_t.RX_DONE
         (rx_frame quiet [0x00, 0x01, 0x03, 0xAA, 0xBB, 0xCC]),
       Step.stack lorawan_event_t.DISCONNECTED quiet,
       Step.retry quiet] (by decide)).1,
   (C8_no_telemetry_before_provisioned config_duty_on
      [Step.stack lorawan_event_t.CONNECTED quiet,
       Step.timer quiet,
       Step.stack lorawan_event_t.RX_DONE
         (rx_frame quiet [0x00, 0x01, 0x03, 0xAA, 0xBB, 0xCC]),
       Step.stack lorawan_event_t.DISCONNECTED quiet,
       Step.retry quiet] (by decide)).2.1 (Or.inr (by decide)),
   (C8_no_telemetry_before_provisioned config_duty_off
      [Step.stack lorawan_event_t.CONNECTED quiet,
       Step.stack lorawan_event_t.UPLINK_REQUIRED quiet,
       Step.timer quiet,
       Step.stack lorawan_event_t.DISCONNECTED quiet,
       Step.stack lorawan_event_t.UPLINK_REQUIRED quiet] (by decide)).2.1 (Or.inl rfl),
   (C8_no_telemetry_before_provisioned config_duty_on
      [Step.stack lorawan_event_t.CONNECTED quiet,
       Step.stack lorawan_event_t.UPLINK_REQUIRED quiet] (by decide)).2.2
      [Step.stack lorawan_event_t.CONNECTED quiet]
      (Step.stack lorawan_event_t.UPLINK_REQUIRED quiet) [] rfl
      ⟨Action.ds1820_begin, by decide, rfl⟩⟩

/-- C9 (as stated, refuted): with duty-cycle enforcement disabled, after
`DISCONNECTED` and `CONNECTED` have been handled and the repeating timer is
registered, an `UPLINK_REQUIRED` event makes no call at all. -/
theorem C9_counterexample :
    (sys_run config_duty_off System.initial
        [Step.stack lorawan_event_t.DISCONNECTED quiet,
         Step.stack lorawan_event_t.CONNECTED quiet]).1.periodic = 1 ∧
    provisioned
        [Step.stack lorawan_event_t.DISCONNECTED quiet,
         Step.stack lorawan_event_t.CONNECTED quiet] = true ∧
    (sys_step config_duty_off
        (sys_run config_duty_off System.initial
          [Step.stack lorawan_event_t.DISCONNECTED quiet,
           Step.stack lorawan_event_t.CONNECTED quiet]).1
        (Step.stack lorawan_event_t.UPLINK_REQUIRED quiet)).2 = [] := by
  decide

/-- C9 (amended): when an `UPLINK_REQUIRED` event is handled and duty-cycle
enforcement is enabled, the handler calls `send_message` within the handling of
that event (with the sensor present this makes the unconfirmed send on the
application port); when duty-cycle enforcement is disabled the event makes no
call. This holds in every state, hence also after `Provisioned`. -/
theorem C9_uplink_required_sends_iff_duty_on (cfg : Config) (st : State) (a : Answers) :
    (cfg.MBED_CONF_LORA_DUTY_CYCLE_ON = true →
      lora_event_handler cfg st lorawan_event_t.UPLINK_REQUIRED a =
        (st, send_message cfg a) ∧
      (lora_event_handler cfg st lorawan_event_t.UPLINK_REQUIRED a).2.countP
        is_send_message_call = 1 ∧
      (a.ds1820_begin = true →
        Action.send cfg.MBED_CONF_LORA_APP_PORT a.tx_text [msg_flag.MSG_UNCONFIRMED_FLAG] ∈
          (lora_event_handler cfg st lorawan_event_t.UPLINK_REQUIRED a).2)) ∧
    (cfg.MBED_CONF_LORA_DUTY_CYCLE_ON = false →
      lora_event_handler cfg st lorawan_event_t.UPLINK_REQUIRED a = (st, [])) := by
  constructor
  · intro hduty
    refine ⟨by simp [lora_event_handler, hduty], ?_, ?_⟩
    · simp only [lora_event_handler, hduty, if_true, send_message]
      split
      · split
        · split
          · simp [is_send_message_call, List.countP_cons]
          · simp [is_send_message_call, List.countP_cons]
        · simp [is_send_message_call, List.countP_cons]
      · simp [is_send_message_call, List.countP_cons]
    · intro hs
      simp [lora_event_handler, hduty, send_message, hs]
  · intro hduty
    simp [lora_event_handler, hduty]

theorem C9_witness :
    (lora_event_handler config_duty_on
        (run_events config_duty_on State.initial
          [(lorawan_event_t.DISCONNECTED, quiet), (lorawan_event_t.CONNECTED, quiet)]).1
        lorawan_event_t.UPLINK_REQUIRED quiet =
      ((run_events config_duty_on State.initial
          [(lorawan_event_t.DISCONNECTED, quiet), (lorawan_event_t.CONNECTED, quiet)]).1,
       send_message config_duty_on quiet) ∧
     (lora_event_handler config_duty_on
        (run_events config_duty_on State.initial
          [(lorawan_event_t.DISCONNECTED, quiet), (lorawan_event_t.CONNECTED, quiet)]).1
        lorawan_event_t.UPLINK_REQUIRED quiet).2.countP is_send_message_call = 1 ∧
     (quiet.ds1820_begin = true →
       Action.send config_duty_on.MBED_CONF_LORA_APP_PORT quiet.tx_text
           [msg_flag.MSG_UNCONFIRMED_FLAG] ∈
         (lora_event_handler config_duty_on
           (run_events config_duty_on State.initial
             [(lorawan_event_t.DISCONNECTED, quiet), (lorawan_event_t.CONNECTED, quiet)]).1
           lorawan_event_t.UPLINK_REQUIRED quiet).2)) ∧
    lora_event_handler config_duty_off
        (run_events config_duty_off State.initial
          [(lorawan_event_t.DISCONNECTED, quiet), (lorawan_event_t.CONNECTED, quiet)]).1
        lorawan_event_t.UPLINK_REQUIRED quiet =
      ((run_events config_duty_off State.initial
          [(lorawan_event_t.DISCONNECTED, quiet), (lorawan_event_t.CONNECTED, quiet)]).1,
       []) :=
  ⟨(C9_uplink_required_sends_iff_duty_on config_duty_on
      (run_events config_duty_on State.initial
        [(lorawan_event_t.DISCONNECTED, quiet), (lorawan_event_t.CONNECTED, quiet)]).1
      quiet).1 rfl,
   (C9_uplink_required_sends_iff_duty_on config_duty_off
      (run_events config_duty_off State.initial
        [(lorawan_event_t.DISCONNECTED, quiet), (lorawan_event_t.CONNECTED, quiet)]).1
      quiet).2 rfl⟩

/-- C10 (as stated, refuted): with duty-cycle enforcement enabled and the repeating
timer registered, a timer tick whose send reports `WOULD_BLOCK`, followed by two
retries whose sends report `WOULD_BLOCK` too, registers three one-shot retries: the
retried send that fails schedules a further retry. -/
theorem C10_counterexample :
    (sys_run config_duty_on
        (sys_run config_duty_on System.initial
          [Step.stack lorawan_event_t.DISCONNECTED quiet,
           Step.stack lorawan_event_t.CONNECTED quiet]).1
        [Step.timer (would_block config_duty_on quiet),
         Step.retry (would_block config_duty_on quiet),
         Step.retry (would_block config_duty_on quiet)]).2.filter is_call_in =
      [Action.call_in 3000, Action.call_in 3000, Action.call_in 3000] := by
  decide

/-- C10 (amended): with duty-cycle enforcement enabled, every send of `send_message`
that reports `WOULD_BLOCK` registers exactly one one-shot retry, 3000 ms later, and
the retry is `send_message` itself: in a run started by one timer tick in which the
first send and the `n` retried sends all report `WOULD_BLOCK`, `n + 1` retries are
registered (one per failed send, not one per run), and one is left waiting. -/
theorem C10_one_retry_per_would_block (cfg : Config) (q : System) (a : Answers)
    (rest : List Answers)
    (hduty : cfg.MBED_CONF_LORA_DUTY_CYCLE_ON = true)
    (hneg : cfg.LORAWAN_STATUS_WOULD_BLOCK < 0)
    (hdisp : q.dispatching = true) (hper : 0 < q.periodic) (hpend : q.pending = 0) :
    (sys_run cfg q
        (Step.timer (would_block cfg a) ::
          rest.map (fun b => Step.retry (would_block cfg b)))).2.filter is_call_in =
      List.replicate (rest.length + 1) (Action.call_in 3000) ∧
    (sys_run cfg q
        (Step.timer (would_block cfg a) ::
          rest.map (fun b => Step.retry (would_block cfg b)))).1.pending = 1 := by
  have hm := send_message_would_block cfg a hduty hneg
  have hne : q.periodic ≠ 0 := by omega
  have hstep : sys_step cfg q (Step.timer (would_block cfg a)) =
      (enqueue q q.app (send_message cfg (would_block cfg a)),
       send_message cfg (would_block cfg a)) := by
    simp [sys_step, hdisp, hne]
  have hq := retry_chain cfg rest
    (enqueue q q.app (send_message cfg (would_block cfg a))) hduty hneg
    (by simp [enqueue, hdisp, hm])
    (by simp [enqueue, hpend, hm, is_call_in, List.countP_cons])
  simp only [sys_run, hstep, List.filter_append, hq.1, hq.2, and_true]
  rw [hm]
  simp [is_call_in, List.filter_cons, List.replicate_succ]

theorem C10_witness :
    (sys_run config_duty_on
        (sys_run config_duty_on System.initial
          [Step.stack lorawan_event_t.DISCONNECTED quiet,
           Step.stack lorawan_event_t.CONNECTED quiet]).1
        (Step.timer (would_block config_duty_on quiet) ::
          [quiet, quiet].map
            (fun b => Step.retry (would_block config_duty_on b)))).2.filter is_call_in =
      List.replicate ([quiet, quiet].length + 1) (Action.call_in 3000) ∧
    (sys_run config_duty_on
        (sys_run config_duty_on System.initial
          [Step.stack lorawan_event_t.DISCONNECTED quiet,
           Step.stack lorawan_event_t.CONNECTED quiet]).1
        (Step.timer (would_block config_duty_on quiet) ::
          [quiet, quiet].map
            (fun b => Step.retry (would_block config_duty_on b)))).1.pending = 1 :=
  C10_one_retry_per_would_block config_duty_on
    (sys_run config_duty_on System.initial
      [Step.stack lorawan_event_t.DISCONNECTED quiet,
       Step.stack lorawan_event_t.CONNECTED quiet]).1
    quiet [quiet, quiet] rfl (by decide) (by decide) (by decide) (by decide)

/-- C11: in one invocation of `send_message` with the sensor present, whatever the
stack's send returns, the only registration with the event queue is a one-shot
`call_in` of 3000 ms, made if and only if the result is `WOULD_BLOCK` (a negative
status code) and duty-cycle enforcement is enabled; in every other case nothing is
scheduled. -/
theorem C11_retry_iff_would_block_and_duty (cfg : Config) (a : Answers)
    (hsensor : a.ds1820_begin = true)
    (hneg : cfg.LORAWAN_STATUS_WOULD_BLOCK < 0) :
    (send_message cfg a).filter is_scheduling =
      if a.send_ret = cfg.LORAWAN_STATUS_WOULD_BLOCK ∧
          cfg.MBED_CONF_LORA_DUTY_CYCLE_ON = true then
        [Action.call_in 3000]
      else [] := by
  by_cases h1 : a.send_ret = cfg.LORAWAN_STATUS_WOULD_BLOCK
  · have h3 : a.send_ret < 0 := by rw [h1]; exact hneg
    cases h2 : cfg.MBED_CONF_LORA_DUTY_CYCLE_ON <;>
      simp [send_message, hsensor, h3, h2, ← h1, is_scheduling, List.filter_cons]
  · by_cases h3 : a.send_ret < 0 <;>
      simp [send_message, hsensor, h1, h3, is_scheduling, List.filter_cons]

theorem C11_witness :
    (send_message config_duty_on (would_block config_duty_on quiet)).filter is_scheduling =
      if (would_block config_duty_on quiet).send_ret =
            config_duty_on.LORAWAN_STATUS_WOULD_BLOCK ∧
          config_duty_on.MBED_CONF_LORA_DUTY_CYCLE_ON = true then
        [Action.call_in 3000]
      else [] :=
  C11_retry_iff_would_block_and_duty config_duty_on (would_block config_duty_on quiet)
    rfl (by decide)

/-- C12: a control-port frame received during the handshake that is shorter than the
3-byte header, or has message type `ALLOC_ANS` with a payload length byte other than
3 or a total length other than 6, or has a message type other than `ALLOC_ANS` and
`REPORT_ANS`, is ignored: the handler makes no call besides the `receive` itself (no
send, no disconnect, no connect) and leaves all globals, the nonce and
`in_skt_join` included, unchanged. -/
theorem C12_malformed_frame_ignored (cfg : Config) (st : State) (a : Answers)
    (frame : List Nat) (hjoin : st.in_skt_join = true) (hmax : frame.length ≤ 255)
    (hbad : frame.length < 3 ∨
      (at_index frame 1 = 0x1 ∧ (at_index frame 2 ≠ 0x3 ∨ frame.length ≠ 6)) ∨
      (at_index frame 1 ≠ 0x1 ∧ at_index frame 1 ≠ 0x3)) :
    lora_event_handler cfg st lorawan_event_t.RX_DONE (rx_frame a frame) =
      (st,
       [Action.receive 223 255
          [msg_flag.MSG_CONFIRMED_FLAG, msg_flag.MSG_UNCONFIRMED_FLAG]]) := by
  have hlen : to_uint16 (frame.length : Int) = frame.length :=
    to_uint16_of_length _ hmax
  by_cases hlt : frame.length < 3
  · simp [lora_event_handler, hjoin, rx_frame, hlen, hlt]
  · have h1 : at_index (overwrite a.rx_stale frame) 1 = at_index frame 1 :=
      at_index_overwrite _ _ _ (by omega)
    have h2 : at_index (overwrite a.rx_stale frame) 2 = at_index frame 2 :=
      at_index_overwrite _ _ _ (by omega)
    rcases hbad with h | ⟨ht, hp⟩ | ⟨ht1, ht3⟩
    · exact absurd h hlt
    · have hcond : ¬ (at_index frame 2 = 3 ∧ frame.length = 6) := by
        rintro ⟨c1, c2⟩
        rcases hp with hp | hp
        · exact hp c1
        · exact hp c2
      simp [lora_event_handler, hjoin, rx_frame, hlen, hlt, h1, h2, ht, hcond,
        APP_KEY_ALLOC_ANS, APP_KEY_REPORT_ANS]
    · simp [lora_event_handler, hjoin, rx_frame, hlen, hlt, h1, h2, ht1, ht3,
        APP_KEY_ALLOC_ANS, APP_KEY_REPORT_ANS]

theorem C12_witness :
    lora_event_handler config_duty_on State.initial lorawan_event_t.RX_DONE
        (rx_frame quiet [0x00, 0x01, 0x02, 0xAA, 0xBB, 0xCC]) =
      (State.initial,
       [Action.receive 223 255
          [msg_flag.MSG_CONFIRMED_FLAG, msg_flag.MSG_UNCONFIRMED_FLAG]]) :=
  C12_malformed_frame_ignored config_duty_on State.initial quiet
    [0x00, 0x01, 0x02, 0xAA, 0xBB, 0xCC] rfl (by decide) (by decide)

/-- C13 (as stated, refuted): after a `JOIN_FAILURE` event the handler still sends
on the control port, requests a disconnect, issues the connect request and registers
the telemetry timer. -/
theorem C13_counterexample :
    (run_events config_duty_on State.initial
        [(lorawan_event_t.JOIN_FAILURE, quiet),
         (lorawan_event_t.CONNECTED, quiet),
         (lorawan_event_t.RX_DONE, rx_frame quiet [0x00, 0x03, 0x00]),
         (lorawan_event_t.DISCONNECTED, quiet),
         (lorawan_event_t.CONNECTED, quiet)]).2 =
      [Action.send 223 [0x00, 0x00, 0x00] [msg_flag.MSG_CONFIRMED_FLAG],
       Action.receive 223 255
         [msg_flag.MSG_CONFIRMED_FLAG, msg_flag.MSG_UNCONFIRMED_FLAG],
       Action.disconnect,
       Action.AES_ECB_encrypt [0, 0, 0, 0xd, 0, 0, 0, 0, 0, 0, 0, 0, 0, 0, 0, 0]
         [0, 0, 0, 0, 0, 0, 0, 0, 0, 0, 0, 0, 0, 0, 0, 6] 16,
       Action.connect [0x00, 0x80, 0x00, 0x00, 0x04, 0x00, 0x37, 0xD1]
         [0x00, 0x00, 0x00, 0x00, 0x00, 0x00, 0x00, 0x0A]
         [0, 0, 0, 0xd, 0, 0, 0, 0, 0, 0, 0, 0, 0, 0, 0, 6],
       Action.call_every 10000] := by
  decide

/-- C13 (amended): a `JOIN_FAILURE` event is only logged: the handler makes no call
and leaves the globals unchanged, and every sequence of events is handled exactly as
if the `JOIN_FAILURE` had not been delivered (there is no terminal state). -/
theorem C13_join_failure_is_ignored (cfg : Config) (st : State) (a : Answers)
    (pre post : List (lorawan_event_t × Answers)) :
    lora_event_handler cfg st lorawan_event_t.JOIN_FAILURE a = (st, []) ∧
    run_events cfg st (pre ++ (lorawan_event_t.JOIN_FAILURE, a) :: post) =
      run_events cfg st (pre ++ post) := by
  refine ⟨by simp [lora_event_handler], ?_⟩
  rw [run_events_append, run_events_append]
  simp [run_events, lora_event_handler]

/-- C14 (evaluation of the code): for every event code outside the twelve named
events the default branch asserts the string literal, which is true, so the handler
returns without aborting, without any call and with the globals unchanged. -/
theorem C14_unknown_event_assertion_passes (cfg : Config) (st : State) (code : Nat)
    (a : Answers) :
    lora_event_handler cfg st (lorawan_event_t.UNKNOWN code) a = (st, []) ∧
    Action.abort ∉ (lora_event_handler cfg st (lorawan_event_t.UNKNOWN code) a).2 := by
  simp [lora_event_handler, MBED_ASSERT]

/-- C15: a `DISCONNECTED` event handled after an earlier `DISCONNECTED` was handled
(which `Provisioned` presupposes) makes the single call `break_dispatch`: no connect
request, no key derivation, globals unchanged; under the event queue the dispatch
loop is stopped, so no later work makes any call. -/
theorem C15_disconnected_after_provisioned_stops (cfg : Config) (st : State)
    (evs : List (lorawan_event_t × Answers)) (b : Answers)
    (periodic pending : Nat) (later : List Step)
    (hdisc : evs.any (fun e => decide (e.1 = lorawan_event_t.DISCONNECTED)) = true) :
    lora_event_handler cfg (run_events cfg st evs).1 lorawan_event_t.DISCONNECTED b =
      ((run_events cfg st evs).1, [Action.break_dispatch]) ∧
    (sys_run cfg
        { app := (run_events cfg st evs).1, periodic := periodic, pending := pending,
          dispatching := true }
        (Step.stack lorawan_event_t.DISCONNECTED b :: later)).2 =
      [Action.break_dispatch] := by
  have hf := flag_false_after_disconnected cfg st evs hdisc
  have hh : lora_event_handler cfg (run_events cfg st evs).1
      lorawan_event_t.DISCONNECTED b =
      ((run_events cfg st evs).1, [Action.break_dispatch]) := by
    simp [lora_event_handler, hf]
  refine ⟨hh, ?_⟩
  simp only [sys_run, sys_step, if_true, hh]
  rw [sys_run_stopped cfg _ later (by simp [enqueue])]
  simp

theorem C15_witness :
    lora_event_handler config_duty_on
        (run_events config_duty_on State.initial
          [(lorawan_event_t.DISCONNECTED, quiet), (lorawan_event_t.CONNECTED, quiet)]).1
        lorawan_event_t.DISCONNECTED quiet =
      ((run_events config_duty_on State.initial
          [(lorawan_event_t.DISCONNECTED, quiet), (lorawan_event_t.CONNECTED, quiet)]).1,
       [Action.break_dispatch]) ∧
    (sys_run config_duty_on
        { app := (run_events config_duty_on State.initial
            [(lorawan_event_t.DISCONNECTED, quiet), (lorawan_event_t.CONNECTED, quiet)]).1,
          periodic := 1, pending := 0, dispatching := true }
        (Step.stack lorawan_event_t.DISCONNECTED quiet ::
          [Step.timer quiet, Step.stack lorawan_event_t.CONNECTED quiet])).2 =
      [Action.break_dispatch] :=
  C15_disconnected_after_provisioned_stops config_duty_on State.initial
    [(lorawan_event_t.DISCONNECTED, quiet), (lorawan_event_t.CONNECTED, quiet)] quiet
    1 0 [Step.timer quiet, Step.stack lorawan_event_t.CONNECTED quiet] (by decide)

/-- C16: in every run of the handler started with `in_skt_join` true, each
registration of the repeating timer is `call_every` with a period of 10000 ms and is
made by a `CONNECTED` event handled when `in_skt_join` is already false, that is
after the connect request with the derived key was issued, never while the
handshake is active; and a firing of the registered timer runs `send_message`. -/
theorem C16_timer_only_after_reconnect (cfg : Config) (st : State)
    (evs : List (lorawan_event_t × Answers)) (act : Action)
    (hjoin : st.in_skt_join = true)
    (hact : act ∈ (run_events cfg st evs).2) (hce : is_call_every act = true) :
    act = Action.call_every 10000 ∧
    (∃ (pre : List (lorawan_event_t × Answers)) (a : Answers)
      (post : List (lorawan_event_t × Answers)),
      evs = pre ++ (lorawan_event_t.CONNECTED, a) :: post ∧
      (run_events cfg st pre).1.in_skt_join = false ∧
      (run_events cfg st pre).2.any is_connect = true) ∧
    ∀ (q : System) (b : Answers), q.dispatching = true → 0 < q.periodic →
      (sys_step cfg q (Step.timer b)).2 = send_message cfg b := by
  obtain ⟨hval, pre, a, post, hsplit, hflag⟩ := call_every_origin cfg evs st act hact hce
  refine ⟨hval, ⟨pre, a, post, hsplit, hflag,
    flag_cleared_has_connect cfg pre st hjoin hflag⟩, ?_⟩
  intro q b hd hp
  have hne : q.periodic ≠ 0 := by omega
  simp [sys_step, hd, hne]

theorem C16_witness :
    Action.call_every 10000 = Action.call_every 10000 ∧
    (∃ (pre : List (lorawan_event_t × Answers)) (a : Answers)
      (post : List (lorawan_event_t × Answers)),
      [(lorawan_event_t.DISCONNECTED, quiet), (lorawan_event_t.CONNECTED, quiet)] =
        pre ++ (lorawan_event_t.CONNECTED, a) :: post ∧
      (run_events config_duty_on State.initial pre).1.in_skt_join = false ∧
      (run_events config_duty_on State.initial pre).2.any is_connect = true) ∧
    ∀ (q : System) (b : Answers), q.dispatching = true → 0 < q.periodic →
      (sys_step config_duty_on q (Step.timer b)).2 = send_message config_duty_on b :=
  C16_timer_only_after_reconnect config_duty_on State.initial
    [(lorawan_event_t.DISCONNECTED, quiet), (lorawan_event_t.CONNECTED, quiet)]
    (Action.call_every 10000) rfl (by decide) rfl

/-- C17: `main` starts the dispatch loop exactly when `lorawan.initialize`,
`set_confirmed_msg_retries` and `enable_adaptive_datarate` return `OK` and `connect`
returns `OK` or `CONNECT_IN_PROGRESS`; otherwise it returns -1, and the calls it has
made stop at the first failing start-up call (no later start-up step is attempted,
`dispatch_forever` is not called). -/
theorem C17_startup_failure_stops_main (cfg : Config) (st : State)
    (r_init r_retries r_adr r_connect : Int) :
    (Action.dispatch_forever ∈ (main cfg st r_init r_retries r_adr r_connect).2 ↔
      (r_init = cfg.LORAWAN_STATUS_OK ∧ r_retries = cfg.LORAWAN_STATUS_OK ∧
       r_adr = cfg.LORAWAN_STATUS_OK ∧
       (r_connect = cfg.LORAWAN_STATUS_OK ∨
        r_connect = cfg.LORAWAN_STATUS_CONNECT_IN_PROGRESS))) ∧
    (¬ (r_init = cfg.LORAWAN_STATUS_OK ∧ r_retries = cfg.LORAWAN_STATUS_OK ∧
        r_adr = cfg.LORAWAN_STATUS_OK ∧
        (r_connect = cfg.LORAWAN_STATUS_OK ∨
         r_connect = cfg.LORAWAN_STATUS_CONNECT_IN_PROGRESS)) →
      (main cfg st r_init r_retries r_adr r_connect).1 = -1) ∧
    (r_init ≠ cfg.LORAWAN_STATUS_OK →
      (main cfg st r_init r_retries r_adr r_connect).2 =
        [Action.setup_trace, Action.stack_init]) ∧
    (r_init = cfg.LORAWAN_STATUS_OK → r_retries ≠ cfg.LORAWAN_STATUS_OK →
      (main cfg st r_init r_retries r_adr r_connect).2 =
        [Action.setup_trace, Action.stack_init, Action.add_app_callbacks,
         Action.set_confirmed_msg_retries 3]) ∧
    (r_init = cfg.LORAWAN_STATUS_OK → r_retries = cfg.LORAWAN_STATUS_OK →
      r_adr ≠ cfg.LORAWAN_STATUS_OK →
      (main cfg st r_init r_retries r_adr r_connect).2 =
        [Action.setup_trace, Action.stack_init, Action.add_app_callbacks,
         Action.set_confirmed_msg_retries 3, Action.enable_adaptive_datarate]) ∧
    (r_init = cfg.LORAWAN_STATUS_OK → r_retries = cfg.LORAWAN_STATUS_OK →
      r_adr = cfg.LORAWAN_STATUS_OK →
      ¬ (r_connect = cfg.LORAWAN_STATUS_OK ∨
         r_connect = cfg.LORAWAN_STATUS_CONNECT_IN_PROGRESS) →
      (main cfg st r_init r_retries r_adr r_connect).2 =
        [Action.setup_trace, Action.stack_init, Action.add_app_callbacks,
         Action.set_confirmed_msg_retries 3, Action.enable_adaptive_datarate,
         Action.connect st.deveui st.appeui st.pseudo_appkey]) := by
  by_cases h1 : r_init = cfg.LORAWAN_STATUS_OK
  · by_cases h2 : r_retries = cfg.LORAWAN_STATUS_OK
    · by_cases h3 : r_adr = cfg.LORAWAN_STATUS_OK
      · by_cases h4 : r_connect = cfg.LORAWAN_STATUS_OK ∨
            r_connect = cfg.LORAWAN_STATUS_CONNECT_IN_PROGRESS
        · simp [main, h1, h2, h3, h4, CONFIRMED_MSG_RETRY_COUNTER]
        · simp [main, h1, h2, h3, h4, CONFIRMED_MSG_RETRY_COUNTER]
      · simp [main, h1, h2, h3, CONFIRMED_MSG_RETRY_COUNTER]
    · simp [main, h1, h2, CONFIRMED_MSG_RETRY_COUNTER]
  · simp [main, h1]

theorem C17_witness :
    Action.dispatch_forever ∈ (main config_duty_on State.initial 0 0 0 (-1016)).2 ∧
    (main config_duty_on State.initial 0 (-1) 0 0).1 = -1 ∧
    (main config_duty_on State.initial (-1) 0 0 0).2 =
      [Action.setup_trace, Action.stack_init] ∧
    (main config_duty_on State.initial 0 (-1) 0 0).2 =
      [Action.setup_trace, Action.stack_init, Action.add_app_callbacks,
       Action.set_confirmed_msg_retries 3] ∧
    (main config_duty_on State.initial 0 0 (-1) 0).2 =
      [Action.setup_trace, Action.stack_init, Action.add_app_callbacks,
       Action.set_confirmed_msg_retries 3, Action.enable_adaptive_datarate] ∧
    (main config_duty_on State.initial 0 0 0 (-1)).2 =
      [Action.setup_trace, Action.stack_init, Action.add_app_callbacks,
       Action.set_confirmed_msg_retries 3, Action.enable_adaptive_datarate,
       Action.connect State.initial.deveui State.initial.appeui
         State.initial.pseudo_appkey] :=
  ⟨(C17_startup_failure_stops_main config_duty_on State.initial 0 0 0 (-1016)).1.2
      ⟨rfl, rfl, rfl, Or.inr rfl⟩,
   (C17_startup_failure_stops_main config_duty_on State.initial 0 (-1) 0 0).2.1
      (by decide),
   (C17_startup_failure_stops_main config_duty_on State.initial (-1) 0 0 0).2.2.1
      (by decide),
   (C17_startup_failure_stops_main config_duty_on State.initial 0 (-1) 0 0).2.2.2.1
      rfl (by decide),
   (C17_startup_failure_stops_main config_duty_on State.initial 0 0 (-1) 0).2.2.2.2.1
      rfl rfl (by decide),
   (C17_startup_failure_stops_main config_duty_on State.initial 0 0 0 (-1)).2.2.2.2.2
      rfl rfl rfl (by decide)⟩

/-- C18 (evaluation of the code): during the handshake `lorawan.receive` returns the
error -1001 and writes nothing; the buffer still holds `[0x00, 0x03, 0x00]`. The
`uint16_t retcode` is 64535, the guard `retcode < 3` does not fire, the stale byte 1
is read as `REPORT_ANS`, and the handler requests a disconnect. -/
theorem C18_receive_error_reaches_disconnect :
    to_uint16 (-1001) = 64535 ∧
    lora_event_handler config_duty_on State.initial lorawan_event_t.RX_DONE
        (rx_error quiet (-1001) [0x00, 0x03, 0x00]) =
      (State.initial,
       [Action.receive 223 255
          [msg_flag.MSG_CONFIRMED_FLAG, msg_flag.MSG_UNCONFIRMED_FLAG],
        Action.disconnect]) := by
  decide

/-- C19: the version byte of a received frame is never read: two frames that differ
only in byte 0 make the `RX_DONE` handler produce the same calls and the same
globals, in the handshake state as in any other. -/
theorem C19_version_byte_is_ignored (cfg : Config) (st : State) (a : Answers)
    (v1 v2 : Nat) (rest : List Nat) :
    lora_event_handler cfg st lorawan_event_t.RX_DONE (rx_frame a (v1 :: rest)) =
      lora_event_handler cfg st lorawan_event_t.RX_DONE (rx_frame a (v2 :: rest)) := by
  simp [lora_event_handler, rx_frame, overwrite, at_index, receive_message]

end SktJoin
